import Mathlib

/-!
Verification of the configuration-language core of gui-logiops:
the libconfig tokenizer/parser (libconfigParser.ts), the domain mapper and
generator (configParser.ts) and the validation engine (validation.ts),
shallowly embedded in Lean.

Conventions of the embedding:
* JavaScript numbers are modelled as `JNum := Option ℚ` where `none` is NaN
  and `some q` is a finite value represented exactly.  Every numeric literal
  the theorems below evaluate is a decimal or hex integer, which doubles
  represent exactly, so the rational model agrees with the JS semantics on
  every evaluated input.  Infinities are not modelled (no code path under
  verification produces one from the inputs considered here).
* Strings are Lean `String`s; the character-level operations the code uses
  (trim, toLowerCase, startsWith, split on newline) are re-implemented over
  `String.data` so that they can be reasoned about by induction.
  `toLowerCase` is modelled on ASCII: the code only lowercases hex digits
  and action-type names, which are ASCII.
* `while` loops and recursions of the TypeScript source become fuel-indexed
  structural recursions (so that everything still evaluates by `rfl` and
  `decide`); each wrapper supplies fuel that dominates the length of the
  scanned input, and fuel-irrelevance is proved where a theorem needs it.
-/

namespace GuiLogiops

/-- JavaScript number: `none` is NaN, `some q` a finite value (exact). -/
abbrev JNum := Option ℚ

/-! ## Character classes used by the tokenizer (libconfigParser.ts) -/

/-- JS regex `\s` (the ASCII part: space, tab, LF, CR, vertical tab, form feed). -/
def isWsJS (c : Char) : Bool :=
  decide (c.toNat = 32 ∨ c.toNat = 9 ∨ c.toNat = 10 ∨ c.toNat = 13 ∨
    c.toNat = 11 ∨ c.toNat = 12)

/-- JS regex `\d`, i.e. `[0-9]`. -/
def isDigitJS (c : Char) : Bool := decide (48 ≤ c.toNat ∧ c.toNat ≤ 57)

/-- JS regex `[0-9a-fA-F]` (a hex digit, either case). -/
def isHexDigitJS (c : Char) : Bool :=
  decide ((48 ≤ c.toNat ∧ c.toNat ≤ 57) ∨ (97 ≤ c.toNat ∧ c.toNat ≤ 102) ∨
    (65 ≤ c.toNat ∧ c.toNat ≤ 70))

/-- The regex `[0-9a-f]` (a lower-case hex digit). -/
def isLowerHexDigit (c : Char) : Bool :=
  decide ((48 ≤ c.toNat ∧ c.toNat ≤ 57) ∨ (97 ≤ c.toNat ∧ c.toNat ≤ 102))

/-- JS regex `[a-zA-Z_]` (start of an identifier). -/
def isIdentStart (c : Char) : Bool :=
  decide ((97 ≤ c.toNat ∧ c.toNat ≤ 122) ∨ (65 ≤ c.toNat ∧ c.toNat ≤ 90) ∨
    c.toNat = 95)

/-- JS regex `[a-zA-Z0-9_]` (identifier constituent). -/
def isIdentChar (c : Char) : Bool :=
  decide ((97 ≤ c.toNat ∧ c.toNat ≤ 122) ∨ (65 ≤ c.toNat ∧ c.toNat ≤ 90) ∨
    (48 ≤ c.toNat ∧ c.toNat ≤ 57) ∨ c.toNat = 95)

/-- The characters the tokenizer treats as operators/delimiters, `'=:;,{}()'`. -/
def isOpDelim (c : Char) : Bool :=
  c = '=' || c = ':' || c = ';' || c = ',' || c = '{' || c = '}' || c = '(' || c = ')'

/-- The decimal-number constituents `[\d\.]`. -/
def isDecNumChar (c : Char) : Bool := isDigitJS c || c = '.'

/-! ## String helpers (JS `String.prototype` methods used by the code) -/

/-- JS `String.prototype.trim` on a character list. -/
def listTrim (cs : List Char) : List Char :=
  ((cs.dropWhile isWsJS).reverse.dropWhile isWsJS).reverse

/-- JS `String.prototype.trim`. -/
def strTrim (s : String) : String := ⟨listTrim s.data⟩

/-- JS `String.prototype.toLowerCase` on one ASCII character. -/
def charToLowerJS (c : Char) : Char :=
  if 65 ≤ c.toNat ∧ c.toNat ≤ 90 then Char.ofNat (c.toNat + 32) else c

/-- JS `String.prototype.toLowerCase` (ASCII). -/
def strToLowerJS (s : String) : String := ⟨s.data.map charToLowerJS⟩

/-- Boolean prefix test on character lists (pattern first, then target). -/
def listIsPrefixB : List Char → List Char → Bool
  | [], _ => true
  | _ :: _, [] => false
  | p :: ps, c :: cs => p = c && listIsPrefixB ps cs

/-- JS `String.prototype.startsWith`. -/
def strStartsWith (s p : String) : Bool := listIsPrefixB p.data s.data

/-- JS `content.split('\n')` on a character list; always returns at least one
(possibly empty) piece, like the JS original. -/
def splitNl : List Char → List (List Char)
  | [] => [[]]
  | c :: rest =>
    let ls := splitNl rest
    if c = '\n' then [] :: ls else (c :: ls.headD []) :: ls.tail

/-! ## Tokenizer (libconfigParser.ts, `tokenize`) -/

/-- The token kinds of the tokenizer.  `comment` is declared by the source's
`Token` interface but never produced; it is kept for fidelity. -/
inductive TokType where
  | identifier
  | string
  | number
  | boolean
  | operator
  | delimiter
  | comment
deriving DecidableEq

/-- A token: kind, text, and 1-based line/column of its first character. -/
structure Token where
  type : TokType
  value : String
  line : Nat
  column : Nat
deriving DecidableEq

/-- The string-literal scanner: the body of the `while` loop inside the `"`
branch of `tokenize`.  Returns the decoded value, the characters after the
closing quote, and the number of characters consumed (closing quote
included).  A missing closing quote simply ends at the end of the line. -/
def scanStr : List Char → List Char × List Char × Nat
  | [] => ([], [], 0)
  | c :: rest =>
    if c = '"' then ([], rest, 1)
    else if c = '\\' then
      match rest with
      | [] => (['\\'], [], 1)
      | e :: rest2 =>
        let ec : Char :=
          if e = 'n' then '\n'
          else if e = 't' then '\t'
          else if e = 'r' then '\r'
          else e
        let r := scanStr rest2
        (ec :: r.1, r.2.1, r.2.2 + 2)
    else
      let r := scanStr rest
      (c :: r.1, r.2.1, r.2.2 + 1)

/-- One line of `tokenize`: the `while (column < line.length)` loop, with the
loop counter modelled as fuel.  `ln` is the 1-based line number, `col` the
0-based column of the first character of `cs`. -/
def tokLineF : Nat → Nat → Nat → List Char → List Token
  | 0, _, _, _ => []
  | _, _, _, [] => []
  | fuel + 1, ln, col, c :: rest =>
    if isWsJS c then
      tokLineF fuel ln (col + 1) rest
    else if c = '/' && (rest.headD ' ') = '/' && rest ≠ [] then
      []
    else if c = '#' then
      []
    else if c = '"' then
      let r := scanStr rest
      { type := TokType.string, value := ⟨r.1⟩, line := ln, column := col + 1 } ::
        tokLineF fuel ln (col + 1 + r.2.2) r.2.1
    else if isDigitJS c then
      if c = '0' && (rest.headD ' ') = 'x' && rest ≠ [] then
        let digits := (rest.tail).takeWhile isHexDigitJS
        let rest2 := (rest.tail).dropWhile isHexDigitJS
        { type := TokType.number, value := ⟨'0' :: 'x' :: digits⟩, line := ln,
          column := col + 1 } ::
          tokLineF fuel ln (col + 2 + digits.length) rest2
      else
        let digits := (c :: rest).takeWhile isDecNumChar
        let rest2 := (c :: rest).dropWhile isDecNumChar
        { type := TokType.number, value := ⟨digits⟩, line := ln, column := col + 1 } ::
          tokLineF fuel ln (col + digits.length) rest2
    else if isIdentStart c then
      let word := (c :: rest).takeWhile isIdentChar
      let rest2 := (c :: rest).dropWhile isIdentChar
      let ty := if (⟨word⟩ : String) = "true" ∨ (⟨word⟩ : String) = "false" then
        TokType.boolean else TokType.identifier
      { type := ty, value := ⟨word⟩, line := ln, column := col + 1 } ::
        tokLineF fuel ln (col + word.length) rest2
    else if isOpDelim c then
      let ty := if c = '=' ∨ c = ':' then TokType.operator else TokType.delimiter
      { type := ty, value := ⟨[c]⟩, line := ln, column := col + 1 } ::
        tokLineF fuel ln (col + 1) rest
    else
      tokLineF fuel ln (col + 1) rest

/-- Tokenize one line (enough fuel for the whole line). -/
def tokenizeLine (ln : Nat) (cs : List Char) : List Token :=
  tokLineF (cs.length + 1) ln 0 cs

/-- Embeds `tokenize` (libconfigParser.ts): split on newlines, scan each line. -/
def tokenize (content : String) : List Token :=
  ((splitNl content.data).enum.map (fun p => tokenizeLine (p.1 + 1) p.2)).flatten

/-- A character at which the scanner is positioned that no branch of
`tokenize` recognizes: not whitespace, not a comment start (`//` with the
lookahead, or `#`), not a string quote, not a number start, not an
identifier start, and not an operator/delimiter.  Such characters are
skipped without contributing a token. -/
def unrecognizedAt (c : Char) (rest : List Char) : Bool :=
  !isWsJS c && !(c = '/' && (rest.headD ' ') = '/' && rest ≠ []) && !(c = '#') &&
    !(c = '"') && !isDigitJS c && !isIdentStart c && !isOpDelim c

/-! ## Generic parsed values (the output of `parseLibconfig`) -/

/-- A parsed JavaScript value: the generic tree produced by the libconfig
parser.  Objects are insertion-ordered key/value lists (JS object semantics:
assigning to an existing key updates it in place). -/
inductive JSVal where
  | str (s : String)
  | num (n : JNum)
  | bool (b : Bool)
  | obj (fields : List (String × JSVal))
  | arr (elems : List JSVal)

/-- JS object assignment `o[k] = v`: update the first binding of `k` in
place, or append a fresh one. -/
def setKey : List (String × JSVal) → String → JSVal → List (String × JSVal)
  | [], k, v => [(k, v)]
  | (k1, v1) :: rest, k, v =>
    if k1 = k then (k1, v) :: rest else (k1, v1) :: setKey rest k v

/-- First binding of a key in an object, if any. -/
def getKey : List (String × JSVal) → String → Option JSVal
  | [], _ => none
  | (k1, v1) :: rest, k => if k1 = k then some v1 else getKey rest k

/-- JS property access `v.k`: a real lookup on objects, `undefined` (`none`)
on every other value (none of the keys the code reads exists on strings,
numbers, booleans or arrays). -/
def getField (v : JSVal) (k : String) : Option JSVal :=
  match v with
  | JSVal.obj fs => getKey fs k
  | _ => none

/-- JS truthiness of a value. -/
def truthy : JSVal → Bool
  | JSVal.str s => decide (s ≠ "")
  | JSVal.num n =>
    match n with
    | none => false
    | some q => decide (q ≠ 0)
  | JSVal.bool b => b
  | JSVal.obj _ => true
  | JSVal.arr _ => true

/-- JS truthiness of a possibly-`undefined` value. -/
def truthyOpt : Option JSVal → Bool
  | none => false
  | some v => truthy v

/-! ## Number and string conversions -/

/-- Digits of a character list, as a natural number accumulator. -/
def digitsToNat (acc : Nat) : List Char → Nat
  | [] => acc
  | c :: rest => digitsToNat (acc * 10 + (c.toNat - 48)) rest

/-- JS `parseFloat` restricted to the number tokens the tokenizer produces
(a leading digit, then digits and dots): the longest prefix of the form
`digits[.digits]` is read, later dots are ignored — `parseFloat('1.2.3')`
is `1.2`.  A string not starting with a digit gives NaN (unreachable from
the tokenizer).  Exponents/signs never occur in these tokens. -/
def parseFloatQ (s : String) : JNum :=
  match s.data with
  | [] => none
  | c :: _ =>
    if ¬ isDigitJS c then none
    else
      let ip := s.data.takeWhile isDigitJS
      let rest := s.data.dropWhile isDigitJS
      let n := digitsToNat 0 ip
      match rest with
      | '.' :: rest2 =>
        let fds := rest2.takeWhile isDigitJS
        let f := digitsToNat 0 fds
        some (mkRat (Int.ofNat (n * 10 ^ fds.length + f)) (10 ^ fds.length))
      | _ => some (Int.ofNat n : ℤ)

/-- Decimal rendering of a nonnegative rational whose denominator divides a
power of ten (every finite value the embedded code manipulates is of this
form; the fallback branch is unreachable on them).  Mirrors how JS prints
such doubles (`1000` → `"1000"`, `3/10` → `"0.3"`). -/
def qAbsToDecimalString (q : ℚ) : String :=
  if q.den = 1 then Nat.repr q.num.natAbs
  else
    match (List.range 40).find? (fun k => q.den ∣ 10 ^ k) with
    | some k =>
      let scaled := q.num.natAbs * (10 ^ k / q.den)
      let digits := Nat.repr scaled
      let digits2 :=
        if digits.length ≤ k then
          String.mk (List.replicate (k + 1 - digits.length) '0') ++ digits
        else digits
      ⟨digits2.data.take (digits2.data.length - k)⟩ ++ "." ++
        ⟨digits2.data.drop (digits2.data.length - k)⟩
    | none => Nat.repr q.num.natAbs ++ "/" ++ Nat.repr q.den

/-- JS `String(n)` for a number.  Exponential notation (|x| ≥ 1e21 or
0 < |x| < 1e-6) is not modelled; no exercised value is in that range. -/
def jnumToString (n : JNum) : String :=
  match n with
  | none => "NaN"
  | some q => if q < 0 then "-" ++ qAbsToDecimalString (-q) else qAbsToDecimalString q

/-- JS string-to-number coercion (`Number('…')`) for the string shapes the
code can meet: trimmed empty string is 0; an optional sign followed by
`digits[.digits]` or `.digits`; an (unsigned) `0x` hex literal.  Exponent
forms, `Infinity`, and binary/octal prefixes are not modelled (they collapse
to NaN); no theorem below depends on them. -/
def strToNumberJS (s : String) : JNum :=
  let t := listTrim s.data
  if t = [] then some 0
  else
    let core : List Char → JNum := fun cs =>
      match cs with
      | '.' :: rest =>
        let fds := rest.takeWhile isDigitJS
        if fds = [] ∨ rest.dropWhile isDigitJS ≠ [] then none
        else some (mkRat (Int.ofNat (digitsToNat 0 fds)) (10 ^ fds.length))
      | c :: _ =>
        if ¬ isDigitJS c then none
        else
          let ip := cs.takeWhile isDigitJS
          let rest := cs.dropWhile isDigitJS
          let n := digitsToNat 0 ip
          match rest with
          | [] => some (Int.ofNat n : ℤ)
          | '.' :: rest2 =>
            let fds := rest2.takeWhile isDigitJS
            if rest2.dropWhile isDigitJS ≠ [] then none
            else some (mkRat (Int.ofNat (n * 10 ^ fds.length + digitsToNat 0 fds))
              (10 ^ fds.length))
          | _ => none
      | [] => none
    match t with
    | '0' :: 'x' :: rest =>
      if rest ≠ [] ∧ rest.all isHexDigitJS then
        some (Int.ofNat (rest.foldl (fun acc c =>
          acc * 16 + (if c.toNat ≥ 97 then c.toNat - 87
            else if c.toNat ≥ 65 then c.toNat - 55 else c.toNat - 48)) 0) : ℤ)
      else none
    | '0' :: 'X' :: rest =>
      if rest ≠ [] ∧ rest.all isHexDigitJS then
        some (Int.ofNat (rest.foldl (fun acc c =>
          acc * 16 + (if c.toNat ≥ 97 then c.toNat - 87
            else if c.toNat ≥ 65 then c.toNat - 55 else c.toNat - 48)) 0) : ℤ)
      else none
    | '+' :: rest => core rest
    | '-' :: rest =>
      match core rest with
      | some q => some (-q)
      | none => none
    | _ => core t

/-- JS `String(v)`, fuel-indexed (arrays stringify their elements joined by
commas, recursively; only that branch consumes fuel). -/
def jsToStringF (fuel : Nat) : JSVal → String
  | JSVal.str s => s
  | JSVal.num n => jnumToString n
  | JSVal.bool b => if b then "true" else "false"
  | JSVal.obj _ => "[object Object]"
  | JSVal.arr l =>
    match fuel with
    | 0 => ""
    | f + 1 => String.intercalate "," (l.map (jsToStringF f))

/-- JS `String(x)` where `x` may be `undefined`, fuel-indexed like
`jsToStringF`. -/
def jsToStringOptF (fuel : Nat) : Option JSVal → String
  | none => "undefined"
  | some v => jsToStringF fuel v

/-- JS `Number(v)`: numbers pass through, booleans become 0/1, strings are
parsed, objects and arrays go through their string coercion.  The fuel only
feeds the array string coercion. -/
def jsToNumberF (fuel : Nat) : JSVal → JNum
  | JSVal.num n => n
  | JSVal.bool b => some (if b then 1 else 0)
  | JSVal.str s => strToNumberJS s
  | JSVal.obj fs => strToNumberJS (jsToStringF fuel (JSVal.obj fs))
  | JSVal.arr l => strToNumberJS (jsToStringF fuel (JSVal.arr l))

/-! ## Generic parser (libconfigParser.ts, `parseValue`/`parseObject`/`parseArray`) -/

/-- Skip one `;` or `,` delimiter, as `parseObject` does after a member. -/
def skipSemiComma : List Token → List Token
  | [] => []
  | t :: rest =>
    if t.type = TokType.delimiter ∧ (t.value = ";" ∨ t.value = ",") then rest
    else t :: rest

/-- Skip one `,` delimiter, as `parseArray` does after an element. -/
def skipComma : List Token → List Token
  | [] => []
  | t :: rest =>
    if t.type = TokType.delimiter ∧ t.value = "," then rest else t :: rest

mutual

/-- Embeds `parseValue`: one value starting at the head of the token list.
Index arithmetic of the source becomes consuming the token list; the `Nat`
fuel bounds the recursion depth exactly as the source recursion is bounded
by the token count (`parseLibconfigRes` supplies `2·|tokens| + 4`, which the
call pattern — at least one token consumed per two nested calls — always
respects; the fuel-exhaustion branch is unreachable from the wrapper). -/
def parseValueF : Nat → List Token → Except String (JSVal × List Token)
  | _, [] => Except.error "Unexpected end of input"
  | 0, _ => Except.error "out of fuel"
  | fuel + 1, t :: rest =>
    match t.type with
    | TokType.string => Except.ok (JSVal.str t.value, rest)
    | TokType.number =>
      if strStartsWith t.value "0x" then Except.ok (JSVal.str t.value, rest)
      else Except.ok (JSVal.num (parseFloatQ t.value), rest)
    | TokType.boolean => Except.ok (JSVal.bool (t.value = "true"), rest)
    | TokType.delimiter =>
      if t.value = "\x7b" then parseObjectF fuel [] rest
      else if t.value = "(" then parseArrayF fuel [] rest
      else Except.error ("Unexpected token: " ++ t.value ++ " at line " ++ toString t.line)
    | _ => Except.error ("Unexpected token: " ++ t.value ++ " at line " ++ toString t.line)

/-- Embeds `parseObject`'s `while` loop (`acc` is the object built so far).
Note the source returns the partial object when the tokens run out before a
closing `}`. -/
def parseObjectF : Nat → List (String × JSVal) → List Token →
    Except String (JSVal × List Token)
  | _, acc, [] => Except.ok (JSVal.obj acc, [])
  | 0, _, _ => Except.error "out of fuel"
  | fuel + 1, acc, t :: rest =>
    if t.type = TokType.delimiter ∧ t.value = "\x7d" then Except.ok (JSVal.obj acc, rest)
    else if t.type = TokType.identifier then
      match rest with
      | t2 :: rest2 =>
        if t2.type = TokType.operator ∧ (t2.value = ":" ∨ t2.value = "=") then
          match parseValueF fuel rest2 with
          | Except.error e => Except.error e
          | Except.ok (v, rest3) =>
            parseObjectF fuel (setKey acc t.value v) (skipSemiComma rest3)
        else
          Except.error ("Expected : or = after " ++ t.value ++ " at line " ++
            toString t.line)
      | [] =>
        Except.error ("Expected : or = after " ++ t.value ++ " at line " ++
          toString t.line)
    else parseObjectF fuel acc rest

/-- Embeds `parseArray`'s `while` loop.  Running out of tokens before the
closing `)` raises `Unterminated array`. -/
def parseArrayF : Nat → List JSVal → List Token → Except String (JSVal × List Token)
  | _, _, [] => Except.error "Unterminated array"
  | 0, _, _ => Except.error "out of fuel"
  | fuel + 1, acc, t :: rest =>
    if t.type = TokType.delimiter ∧ t.value = ")" then Except.ok (JSVal.arr acc, rest)
    else
      match parseValueF fuel (t :: rest) with
      | Except.error e => Except.error e
      | Except.ok (v, rest2) => parseArrayF fuel (acc ++ [v]) (skipComma rest2)

end

/-- Embeds `parseLibconfig`: tokenize, then parse an implicit top-level
object when the first token is an identifier, otherwise a single value. -/
def parseLibconfigRes (content : String) : Except String JSVal :=
  let tokens := tokenize content
  let fuel := 2 * tokens.length + 4
  match tokens with
  | t :: _ =>
    if t.type = TokType.identifier then
      Except.map (fun r => r.1) (parseObjectF fuel [] tokens)
    else Except.map (fun r => r.1) (parseValueF fuel tokens)
  | [] => Except.map (fun r => r.1) (parseValueF fuel tokens)

/-! ## Typed data model (types/logiops.ts) -/

/-- Metadata of a configuration.  `Date` values are modelled by their
`toISOString` rendering, the only way the code under verification reads
them. -/
structure ConfigurationMetadata where
  version : String
  createdISO : String
  modifiedISO : String
  filename : Option String := none
  originalContent : Option String := none

/-- SmartShift settings (`onVal` embeds the field `on` of the source, which
is a Lean keyword). -/
structure SmartShiftSettings where
  onVal : Bool
  threshold : JNum

/-- One DPI sensor (`default` is optional in the TS interface). -/
structure DPISensor where
  dpi : JNum
  default : Option Bool := none

/-- DPI settings: an ordered sensor list. -/
structure DPISettings where
  sensors : List DPISensor

mutual

/-- A button action: runtime `type` string plus optional parameters. -/
inductive ButtonAction where
  | mk (type : String) (parameters : Option ActionParams) : ButtonAction

/-- The open parameter record `ButtonActionParameters`, restricted to the
fields the code reads or writes. -/
inductive ActionParams where
  | mk (keys : Option (List String)) (sensor : Option JNum)
      (gesture : Option GestureMapping) (gestures : Option GestureList)
      (mode : Option String) (axis : Option String)
      (axis_multiplier : Option JNum) : ActionParams

/-- A gesture mapping (recursive through its action). -/
inductive GestureMapping where
  | mk (direction : String) (mode : String) (action : ButtonAction)
      (threshold : Option JNum) (interval : Option JNum) : GestureMapping

/-- A list of gesture mappings, spelled as part of the mutual block so that
recursion over actions stays structural. -/
inductive GestureList where
  | nil : GestureList
  | cons (g : GestureMapping) (rest : GestureList) : GestureList

end

def ButtonAction.type : ButtonAction → String
  | ButtonAction.mk t _ => t

def ButtonAction.parameters : ButtonAction → Option ActionParams
  | ButtonAction.mk _ p => p

def ActionParams.keys : ActionParams → Option (List String)
  | ActionParams.mk ks _ _ _ _ _ _ => ks

def ActionParams.sensor : ActionParams → Option JNum
  | ActionParams.mk _ sn _ _ _ _ _ => sn

def ActionParams.gesture : ActionParams → Option GestureMapping
  | ActionParams.mk _ _ g _ _ _ _ => g

def ActionParams.gestures : ActionParams → Option GestureList
  | ActionParams.mk _ _ _ gs _ _ _ => gs

def ActionParams.mode : ActionParams → Option String
  | ActionParams.mk _ _ _ _ m _ _ => m

def ActionParams.axis : ActionParams → Option String
  | ActionParams.mk _ _ _ _ _ a _ => a

def ActionParams.axis_multiplier : ActionParams → Option JNum
  | ActionParams.mk _ _ _ _ _ _ m => m

def GestureMapping.direction : GestureMapping → String
  | GestureMapping.mk d _ _ _ _ => d

def GestureMapping.mode : GestureMapping → String
  | GestureMapping.mk _ m _ _ _ => m

def GestureMapping.action : GestureMapping → ButtonAction
  | GestureMapping.mk _ _ a _ _ => a

def GestureMapping.threshold : GestureMapping → Option JNum
  | GestureMapping.mk _ _ _ t _ => t

def GestureMapping.interval : GestureMapping → Option JNum
  | GestureMapping.mk _ _ _ _ i => i

def GestureList.ofList : List GestureMapping → GestureList
  | [] => GestureList.nil
  | g :: rest => GestureList.cons g (GestureList.ofList rest)

def GestureList.toList : GestureList → List GestureMapping
  | GestureList.nil => []
  | GestureList.cons g rest => g :: GestureList.toList rest

def GestureList.length (l : GestureList) : Nat := l.toList.length

/-- Parameters carrying only `keys`. -/
def apKeys (ks : List String) : ActionParams :=
  ActionParams.mk (some ks) none none none none none none

/-- Parameters carrying only `sensor`. -/
def apSensor (n : JNum) : ActionParams :=
  ActionParams.mk none (some n) none none none none none

/-- Parameters carrying only `gestures`. -/
def apGestures (gs : GestureList) : ActionParams :=
  ActionParams.mk none none none (some gs) none none none

/-- Parameters carrying `mode`, `axis` and optionally `axis_multiplier`. -/
def apAxis (m a : String) (mult : Option JNum) : ActionParams :=
  ActionParams.mk none none none none (some m) (some a) mult

/-- A button mapping. -/
structure ButtonMapping where
  cid : String
  action : ButtonAction

/-- Scroll wheel settings (`hiresscroll`). -/
structure ScrollWheelSettings where
  hires : Option Bool := none
  invert : Option Bool := none
  target : Option Bool := none
  up : Option ButtonAction := none
  down : Option ButtonAction := none
  left : Option ButtonAction := none
  right : Option ButtonAction := none

/-- A device configuration. -/
structure Device where
  name : String
  vid : Option String := none
  pid : Option String := none
  timeout : Option JNum := none
  smartshift : Option SmartShiftSettings := none
  dpi : Option DPISettings := none
  buttons : Option (List ButtonMapping) := none
  gestures : Option (List GestureMapping) := none
  scrollWheel : Option ScrollWheelSettings := none

/-- A complete configuration.  `metadata` is required by the TS interface;
the validator's defensive `!config.metadata` branch is commented where it is
modelled. -/
structure LogiopsConfiguration where
  devices : List Device
  metadata : ConfigurationMetadata

/-- The structured parse error (`ConfigParseError`), message plus optional
position.  The current code never fills `line`/`column`. -/
structure ConfigParseError where
  message : String
  line : Option Nat := none
  column : Option Nat := none

/-! ## Domain mapper (configParser.ts) -/

/-- Embeds `normalizeHexValue` (configParser.ts): trim, lower-case, and add
a leading `0x` unless already present. -/
def normalizeHexValue (value : String) : String :=
  let cleaned := strToLowerJS (strTrim value)
  if strStartsWith cleaned "0x" then cleaned else "0x" ++ cleaned

/-- The regex `^0x[0-9a-f]+$` from the spec's hex-normalization property. -/
def matchesLowerHexPat (s : String) : Bool :=
  match s.data with
  | '0' :: 'x' :: rest => !rest.isEmpty && rest.all isLowerHexDigit
  | _ => false

/-- Placeholder for `new Date().toISOString()`: wall-clock time is not
modelled; no claim depends on the timestamps the mapper stores. -/
def newDateISO : String := "1970-01-01T00:00:00.000Z"

/-- The type-alias table shared by `parseActionFromData` and
`normalizeActionData`: `keypress→key`, `gestures→gesture`,
`changedpi→changeDPI`, everything else passes through. -/
def normalizeTypeAlias (normalizedType : String) : String :=
  if normalizedType = "keypress" then "key"
  else if normalizedType = "gestures" then "gesture"
  else if normalizedType = "changedpi" then "changeDPI"
  else normalizedType

mutual

/-- Embeds `parseActionFromData`.  The argument is `undefined`-aware; the
fuel bounds the gesture/action recursion depth (the wrapper supplies the
input length, which dominates any parsed value's depth; the fuel-exhaustion
branch is unreachable from it). -/
def parseActionFromDataF : Nat → Option JSVal → Option ButtonAction
  | _, none => none
  | 0, some _ => none
  | fuel + 1, some data =>
    if ¬ truthy data then none
    else if ¬ truthyOpt (getField data "type") then none
    else
      let originalType := jsToStringOptF fuel (getField data "type")
      let actionType := normalizeTypeAlias (strToLowerJS originalType)
      let sw := strToLowerJS actionType
      let params : Option ActionParams :=
        if sw = "keypress" ∨ sw = "key" then
          match getField data "keys" with
          | some kv =>
            if truthy kv then
              some (apKeys (match kv with
                | JSVal.arr l => l.map (jsToStringF fuel)
                | v => [jsToStringF fuel v]))
            else none
          | none => none
        else if sw = "gestures" ∨ sw = "gesture" then
          match getField data "gestures" with
          | some (JSVal.arr l) =>
            some (apGestures (GestureList.ofList (parseGestureListF fuel l)))
          | _ => none
        else if sw = "axis" then
          if truthyOpt (getField data "mode") ∧ truthyOpt (getField data "axis") then
            some (apAxis (jsToStringOptF fuel (getField data "mode"))
              (jsToStringOptF fuel (getField data "axis"))
              ((getField data "axis_multiplier").map (jsToNumberF fuel)))
          else none
        else if sw = "changedpi" then
          match getField data "sensor" with
          | some v => some (apSensor (jsToNumberF fuel v))
          | none => none
        else none
      some (ButtonAction.mk actionType params)

/-- Embeds `parseGestureFromData`. -/
def parseGestureFromDataF : Nat → JSVal → Option GestureMapping
  | 0, _ => none
  | fuel + 1, data =>
    if ¬ truthyOpt (getField data "direction") ∨ ¬ truthyOpt (getField data "mode") then
      none
    else
      match parseActionFromDataF fuel (getField data "action") with
      | none => none
      | some act =>
        some (GestureMapping.mk (jsToStringOptF fuel (getField data "direction"))
          (jsToStringOptF fuel (getField data "mode")) act
          ((getField data "threshold").map (jsToNumberF fuel))
          ((getField data "interval").map (jsToNumberF fuel)))

/-- `data.gestures.map(parseGestureFromData).filter(Boolean)`. -/
def parseGestureListF : Nat → List JSVal → List GestureMapping
  | _, [] => []
  | 0, _ :: _ => []
  | fuel + 1, g :: gs =>
    match parseGestureFromDataF (fuel + 1) g with
    | none => parseGestureListF (fuel + 1) gs
    | some m => m :: parseGestureListF (fuel + 1) gs

end

mutual

/-- Embeds `normalizeActionData`.  A JS `undefined` argument makes the
source throw a `TypeError` when it reads `.type`; that path is the
`Except.error`. -/
def normalizeActionDataF : Nat → Option JSVal → Except String ButtonAction
  | _, none => Except.error "Cannot read properties of undefined (reading 'type')"
  | 0, some _ => Except.error "out of fuel"
  | fuel + 1, some a =>
    let originalType := jsToStringOptF fuel (getField a "type")
    let actionType := normalizeTypeAlias (strToLowerJS originalType)
    let fallback : Except String ButtonAction :=
      if actionType = "axis" ∧ truthyOpt (getField a "mode") ∧
          truthyOpt (getField a "axis") then
        Except.ok (ButtonAction.mk actionType (some (apAxis
          (jsToStringOptF fuel (getField a "mode"))
          (jsToStringOptF fuel (getField a "axis"))
          ((getField a "axis_multiplier").map (jsToNumberF fuel)))))
      else if actionType = "changeDPI" ∧ (getField a "sensor").isSome then
        Except.ok (ButtonAction.mk actionType (some (apSensor
          (jsToNumberF fuel ((getField a "sensor").getD (JSVal.num none))))))
      else Except.ok (ButtonAction.mk actionType none)
    if actionType = "key" ∧ truthyOpt (getField a "keys") then
      Except.ok (ButtonAction.mk actionType (some (apKeys
        (match getField a "keys" with
          | some (JSVal.arr l) => l.map (jsToStringF fuel)
          | some v => [jsToStringF fuel v]
          | none => []))))
    else if actionType = "gesture" then
      match getField a "gestures" with
      | some (JSVal.arr l) =>
        match normalizeGestureListF fuel l with
        | Except.error e => Except.error e
        | Except.ok gs =>
          Except.ok (ButtonAction.mk actionType (some (apGestures (GestureList.ofList gs))))
      | _ => fallback
    else fallback

/-- The gesture mapping inside `normalizeActionData`: direction and mode by
`String(…)`, the nested action normalized recursively (no
threshold/interval). -/
def normalizeGestureListF : Nat → List JSVal → Except String (List GestureMapping)
  | _, [] => Except.ok []
  | 0, _ :: _ => Except.error "out of fuel"
  | fuel + 1, g :: gs =>
    match normalizeActionDataF fuel (getField g "action") with
    | Except.error e => Except.error e
    | Except.ok act =>
      match normalizeGestureListF fuel gs with
      | Except.error e => Except.error e
      | Except.ok rest =>
        Except.ok (GestureMapping.mk (jsToStringOptF fuel (getField g "direction"))
          (jsToStringOptF fuel (getField g "mode")) act none none :: rest)

end

/-- Embeds `parseScrollWheelFromData`: booleans by presence + `Boolean(…)`,
and the four directional entries, with the special case for entries that
carry `mode`+`axis` but no `type`: a pseudo-axis action of type
`cycleHiRes` is synthesized from them. -/
def parseScrollWheelFromDataF (fuel : Nat) (data : JSVal) : ScrollWheelSettings :=
  let dirAct : String → Option ButtonAction := fun dname =>
    match getField data dname with
    | none => none
    | some dv =>
      if ¬ truthy dv then none
      else if ¬ truthyOpt (getField dv "type") ∧ truthyOpt (getField dv "mode") ∧
          truthyOpt (getField dv "axis") then
        some (ButtonAction.mk "cycleHiRes" (some (apAxis
          (jsToStringOptF fuel (getField dv "mode"))
          (jsToStringOptF fuel (getField dv "axis"))
          ((getField dv "axis_multiplier").map (jsToNumberF fuel)))))
      else parseActionFromDataF fuel (some dv)
  { hires := (getField data "hires").map truthy
    invert := (getField data "invert").map truthy
    target := (getField data "target").map truthy
    up := dirAct "up"
    down := dirAct "down"
    left := dirAct "left"
    right := dirAct "right" }

/-- Uniform selector for the four directional fields of
`ScrollWheelSettings`, to state directional properties once. -/
def scrollDirField (sw : ScrollWheelSettings) (dir : String) : Option ButtonAction :=
  if dir = "up" then sw.up
  else if dir = "down" then sw.down
  else if dir = "left" then sw.left
  else if dir = "right" then sw.right
  else none

/-- JS `a || b || c` over possibly-undefined values: the first truthy one,
else the last. -/
def firstTruthy3 (a b c : Option JSVal) : Option JSVal :=
  if truthyOpt a then a else if truthyOpt b then b else c

/-- The `device.dpi = data.dpi` raw assignment: the source stores the parsed
object unchecked behind the `DPISettings` interface.  The typed embedding
coerces it: `sensors` must be an array to contribute, a non-numeric `dpi`
member becomes NaN, and `default` is read by its truthiness — matching every
later use of these fields in the validator and the generator.  (No claim
exercises a malformed `dpi` object.) -/
def dpiFromJSVal (v : JSVal) : DPISettings :=
  { sensors :=
      match getField v "sensors" with
      | some (JSVal.arr l) =>
        l.map (fun s =>
          { dpi := match getField s "dpi" with
              | some (JSVal.num n) => n
              | _ => none
            default := (getField s "default").map truthy })
      | _ => [] }

/-- The per-button body of the `data.buttons.map(…).filter(Boolean)` call in
`parseDeviceFromData`: buttons without truthy `cid` and `action` are
dropped, the rest get a normalized cid and a recursively normalized action
(whose `TypeError` on malformed nested gestures propagates). -/
def buttonsMapF (fuel : Nat) : List JSVal → Except String (List ButtonMapping)
  | [] => Except.ok []
  | b :: bs =>
    if ¬ truthyOpt (getField b "cid") ∨ ¬ truthyOpt (getField b "action") then
      buttonsMapF fuel bs
    else
      match normalizeActionDataF fuel (getField b "action") with
      | Except.error e => Except.error e
      | Except.ok act =>
        match buttonsMapF fuel bs with
        | Except.error e => Except.error e
        | Except.ok rest =>
          Except.ok ({ cid := normalizeHexValue (jsToStringOptF fuel (getField b "cid"))
                       action := act } :: rest)

/-- Embeds `parseDeviceFromData`: `null` (here `none`) when `name` is
missing or falsy, otherwise the device with `vid`/`pid` normalized (empty
when absent or falsy) and the optional sections. -/
def parseDeviceFromDataF (fuel : Nat) (data : JSVal) : Except String (Option Device) :=
  match getField data "name" with
  | none => Except.ok none
  | some nv =>
    if ¬ truthy nv then Except.ok none
    else
      let name := match nv with
        | JSVal.str s => s
        | v => jsToStringF fuel v
      let vid := match getField data "vid" with
        | some v => if truthy v then normalizeHexValue (jsToStringF fuel v) else ""
        | none => ""
      let pid := match getField data "pid" with
        | some v => if truthy v then normalizeHexValue (jsToStringF fuel v) else ""
        | none => ""
      let timeout := (getField data "timeout").map (jsToNumberF fuel)
      let dpi : Option DPISettings :=
        match getField data "dpi" with
        | none => none
        | some (JSVal.num n) => some { sensors := [{ dpi := n, default := some true }] }
        | some v =>
          if truthy v ∧ truthyOpt (getField v "sensors") then some (dpiFromJSVal v)
          else none
      let smartshift : Option SmartShiftSettings :=
        match getField data "smartshift" with
        | none => none
        | some sv =>
          if truthy sv then
            some { onVal := truthyOpt (getField sv "on")
                   threshold :=
                     match getField sv "threshold" with
                     | some tv => if truthy tv then jsToNumberF fuel tv else some 20
                     | none => some 20 }
          else none
      let scrollWheel : Option ScrollWheelSettings :=
        match firstTruthy3 (getField data "hiresscroll") (getField data "scrollwheel")
          (getField data "scroll_wheel") with
        | some sv => if truthy sv then some (parseScrollWheelFromDataF fuel sv) else none
        | none => none
      let gestures : Option (List GestureMapping) :=
        match getField data "gestures" with
        | some (JSVal.arr l) => some (parseGestureListF fuel l)
        | _ => none
      let base : Device :=
        { name := name, vid := some vid, pid := some pid, timeout := timeout
          smartshift := smartshift, dpi := dpi, buttons := none
          gestures := gestures, scrollWheel := scrollWheel }
      match getField data "buttons" with
      | some (JSVal.arr l) =>
        match buttonsMapF fuel l with
        | Except.error e => Except.error e
        | Except.ok bs => Except.ok (some { base with buttons := some bs })
      | _ => Except.ok (some base)

/-- The `for (const deviceData of devicesData)` loop of
`parseDevicesFromData` over an array. -/
def devicesLoopF (fuel : Nat) : List JSVal → Except String (List Device)
  | [] => Except.ok []
  | d :: ds =>
    match parseDeviceFromDataF fuel d with
    | Except.error e => Except.error e
    | Except.ok od =>
      match devicesLoopF fuel ds with
      | Except.error e => Except.error e
      | Except.ok rest =>
        Except.ok (match od with
          | some dev => dev :: rest
          | none => rest)

/-- Embeds `parseDevicesFromData`: `for…of` iterates arrays element-wise and
strings character-wise (each character parses to no device); every other
value raises the JS `TypeError` "devicesData is not iterable", which
`parseConfigFile` catches and wraps. -/
def parseDevicesFromDataF (fuel : Nat) (dd : JSVal) : Except String (List Device) :=
  match dd with
  | JSVal.arr l => devicesLoopF fuel l
  | JSVal.str s => devicesLoopF fuel (s.data.map (fun c => JSVal.str ⟨[c]⟩))
  | _ => Except.error "devicesData is not iterable"

/-- Embeds `parseConfigFile`: parse the libconfig tree, read `parsed.devices
|| []`, map the devices, and build fresh metadata.  Every error is wrapped
into a `ConfigParseError` with the `Failed to parse configuration file: `
prefix (the source rethrows `ConfigParseError`s unchanged, but none of its
callees ever throws one). -/
def parseConfigFileM (content : String) (filename : Option String) :
    Except ConfigParseError LogiopsConfiguration :=
  let fuel := content.data.length + 16
  match parseLibconfigRes content with
  | Except.error m =>
    Except.error { message := "Failed to parse configuration file: " ++ m }
  | Except.ok parsed =>
    let dd := match getField parsed "devices" with
      | some v => if truthy v then v else JSVal.arr []
      | none => JSVal.arr []
    match parseDevicesFromDataF fuel dd with
    | Except.error m =>
      Except.error { message := "Failed to parse configuration file: " ++ m }
    | Except.ok devices =>
      Except.ok { devices := devices
                  metadata := { version := "1.0.0", createdISO := newDateISO
                                modifiedISO := newDateISO, filename := filename
                                originalContent := some content } }

/-- Embeds `validateConfigSyntax`: a `(isValid, errors)` view of
`parseConfigFile`. -/
def validateConfigSyntax (content : String) : Bool × List String :=
  match parseConfigFileM content none with
  | Except.ok _ => (true, [])
  | Except.error e => (false, [e.message])

/-! ## Generator (configParser.ts, `generateConfigFile` and friends) -/

/-- JS `String(b)` for a boolean, as template literals render it. -/
def boolStr (b : Bool) : String := if b then "true" else "false"

/-- JS `charAt(0).toUpperCase() + slice(1)`. -/
def charToUpperJS (c : Char) : Char :=
  if 97 ≤ c.toNat ∧ c.toNat ≤ 122 then Char.ofNat (c.toNat - 32) else c

/-- Capitalize the first character (empty strings pass through). -/
def capitalizeFirst (s : String) : String :=
  match s.data with
  | [] => ""
  | c :: rest => ⟨charToUpperJS c :: rest⟩

/-- Embeds `getButtonComment`: the fixed CID comment table, keyed by the
lower-cased cid. -/
def getButtonComment (cid : String) : String :=
  let c := strToLowerJS cid
  if c = "0xc3" then "Thumb button"
  else if c = "0xc4" then "Forward button"
  else if c = "0xc5" then "Back button"
  else if c = "0x53" then "Scroll wheel button"
  else if c = "0x56" then "Gesture button"
  else "Button"

/-- The output respelling of action type names in `generateActionConfig`:
`key→Keypress`, `gesture→Gestures`, `changedpi→ChangeDPI`, `axis→Axis`,
`cyclehires→cycleHiRes` (case-insensitively), others unchanged. -/
def genActionTypeName (t : String) : String :=
  let lt := strToLowerJS t
  if lt = "key" ∨ lt = "keypress" then "Keypress"
  else if lt = "gesture" ∨ lt = "gestures" then "Gestures"
  else if lt = "changedpi" then "ChangeDPI"
  else if lt = "axis" then "Axis"
  else if lt = "cyclehires" then "cycleHiRes"
  else t

mutual

/-- Embeds `generateActionConfig`.  The `lines.pop()` of the `Axis` and
`cycleHiRes` branches is modelled by just not emitting the type line
there. -/
def generateActionConfig (action : ButtonAction) (indent : String) : List String :=
  match action with
  | ButtonAction.mk ty params =>
    let actionType := genActionTypeName ty
    let typeLine := indent ++ "type: \"" ++ actionType ++ "\";"
    if actionType = "Keypress" then
      [typeLine] ++
        (match params with
          | some p =>
            match p.keys with
            | some ks =>
              [indent ++ "keys: [" ++
                String.intercalate ", " (ks.map (fun k => "\"" ++ k ++ "\"")) ++ "];"]
            | none => []
          | none => [])
    else if actionType = "Gestures" then
      [typeLine] ++
        (match params with
          | some (ActionParams.mk _ _ _ (some gs) _ _ _) =>
            [indent ++ "gestures: ("] ++ genGestureLines gs 0 gs.length indent ++
              [indent ++ ");"]
          | _ => [])
    else if actionType = "Axis" ∨ actionType = "cycleHiRes" then
      match params with
      | some p =>
        match p.axis with
        | some ax =>
          if ax ≠ "" then
            [indent ++ "mode: \"Axis\";", indent ++ "axis: \"" ++ ax ++ "\";"] ++
              (match p.axis_multiplier with
                | some m => [indent ++ "axis_multiplier: " ++ jnumToString m ++ ";"]
                | none => [])
          else [typeLine]
        | none => [typeLine]
      | none => [typeLine]
    else [typeLine]

/-- The `forEach` over nested gestures inside the `Gestures` branch. -/
def genGestureLines (gs : GestureList) (idx total : Nat) (indent : String) :
    List String :=
  match gs with
  | GestureList.nil => []
  | GestureList.cons (GestureMapping.mk dir gmode act _ _) rest =>
    ([indent ++ "  \x7b",
      indent ++ "    direction: \"" ++ capitalizeFirst dir ++ "\";",
      indent ++ "    mode: \"" ++ gmode ++ "\";",
      indent ++ "    action =",
      indent ++ "    \x7b"] ++
      generateActionConfig act (indent ++ "      ") ++
      [indent ++ "    \x7d;",
       indent ++ "  \x7d" ++ (if idx < total - 1 then "," else "")]) ++
      genGestureLines rest (idx + 1) total indent

end

/-- Truthiness of a sensor's `default` member (`find(s => s.default)`). -/
def sensorDefaultTruthy (s : DPISensor) : Bool :=
  match s.default with
  | some b => b
  | none => false

/-- Embeds `generateDeviceConfig`. -/
def generateDeviceConfig (device : Device) (indent : String) : List String :=
  [indent ++ "// For the " ++ device.name,
   indent ++ "name: \"" ++ device.name ++ "\";"] ++
  (match device.vid with
    | some v => if v ≠ "" then [indent ++ "vid: " ++ v ++ ";"] else []
    | none => []) ++
  (match device.pid with
    | some v => if v ≠ "" then [indent ++ "pid: " ++ v ++ ";"] else []
    | none => []) ++
  (match device.timeout with
    | some t => [indent ++ "timeout: " ++ jnumToString t ++ ";"]
    | none => []) ++
  (match device.smartshift with
    | some ss =>
      [indent ++ "smartshift:", indent ++ "\x7b",
       indent ++ "  on: " ++ boolStr ss.onVal ++ ";",
       indent ++ "  threshold: " ++ jnumToString ss.threshold ++ ";",
       indent ++ "\x7d;"]
    | none => []) ++
  (match device.scrollWheel with
    | some sw =>
      [indent ++ "hiresscroll:", indent ++ "\x7b"] ++
      (match sw.hires with
        | some b => [indent ++ "  hires: " ++ boolStr b ++ ";"]
        | none => []) ++
      (match sw.invert with
        | some b => [indent ++ "  invert: " ++ boolStr b ++ ";"]
        | none => []) ++
      (match sw.target with
        | some b => [indent ++ "  target: " ++ boolStr b ++ ";"]
        | none => []) ++
      (let dirBlock : String → Option ButtonAction → List String := fun dname oa =>
        match oa with
        | some a =>
          [indent ++ "  " ++ dname ++ ": \x7b"] ++
            generateActionConfig a (indent ++ "      ") ++ [indent ++ "  \x7d,"]
        | none => []
      dirBlock "up" sw.up ++ dirBlock "down" sw.down ++ dirBlock "left" sw.left ++
        dirBlock "right" sw.right) ++
      [indent ++ "\x7d;"]
    | none => []) ++
  (match device.dpi with
    | some d =>
      match d.sensors with
      | [] => []
      | s0 :: _ =>
        let defS := (d.sensors.find? sensorDefaultTruthy).getD s0
        [indent ++ "dpi: " ++ jnumToString defS.dpi ++ ";"]
    | none => []) ++
  (match device.buttons with
    | some bs =>
      if bs.length > 0 then
        [indent ++ "buttons: ("] ++
        (bs.enum.map (fun p =>
          [indent ++ "  \x7b",
           indent ++ "    # " ++ getButtonComment p.2.cid,
           indent ++ "    cid: " ++ p.2.cid ++ ";",
           indent ++ "    action =",
           indent ++ "    \x7b"] ++
          generateActionConfig p.2.action (indent ++ "      ") ++
          [indent ++ "    \x7d;",
           indent ++ "  \x7d" ++ (if p.1 < bs.length - 1 then "," else "")])).flatten ++
        [indent ++ ");"]
      else []
    | none => [])

/-- JS `lines.join('\n')`. -/
def joinNl : List String → String
  | [] => ""
  | [l] => l
  | l :: rest => l ++ "\n" ++ joinNl rest

/-- Embeds `generateConfigFile`: header comments, then the devices array
(the separator lines `},` and `{` go between consecutive devices). -/
def generateConfigFile (config : LogiopsConfiguration) : String :=
  let header :=
    ["// Generated by logiops-gui",
     "// Created: " ++ config.metadata.createdISO,
     "// Modified: " ++ config.metadata.modifiedISO,
     ""]
  let deviceLines :=
    if config.devices.length > 0 then
      ["devices: (", "\x7b"] ++
      (config.devices.enum.map (fun p =>
        generateDeviceConfig p.2 "  " ++
          (if p.1 < config.devices.length - 1 then ["\x7d,", "\x7b"] else []))).flatten ++
      ["\x7d);"]
    else []
  joinNl (header ++ deviceLines)

/-! ## Validation engine (validation.ts) -/

/-- A validation diagnostic (`ValidationError`): path, message, severity
string (`"error"` or `"warning"`), optional field name. -/
structure ValidationError where
  path : String
  message : String
  severity : String
  field : Option String := none

/-- A validation result (`ValidationResult`). -/
structure ValidationResult where
  isValid : Bool
  errors : List ValidationError
  warnings : List ValidationError

/-- `VALIDATION_CONSTANTS.DPI` (types/logiops.ts). -/
def DPI_MIN : ℚ := 50

/-- `VALIDATION_CONSTANTS.DPI.MAX`. -/
def DPI_MAX : ℚ := 25600

/-- `VALIDATION_CONSTANTS.GESTURE_THRESHOLD`. -/
def GESTURE_THRESHOLD_MIN : ℚ := 1

/-- `VALIDATION_CONSTANTS.GESTURE_THRESHOLD.MAX`. -/
def GESTURE_THRESHOLD_MAX : ℚ := 100

/-- `VALIDATION_CONSTANTS.GESTURE_INTERVAL`. -/
def GESTURE_INTERVAL_MIN : ℚ := 1

/-- `VALIDATION_CONSTANTS.GESTURE_INTERVAL.MAX`. -/
def GESTURE_INTERVAL_MAX : ℚ := 1000

/-- `VALIDATION_CONSTANTS.DEVICE_ID_PATTERN`, `^0x[0-9a-fA-F]{4}$`. -/
def matchesDeviceIdPat (s : String) : Bool :=
  match s.data with
  | '0' :: 'x' :: rest => rest.length = 4 && rest.all isHexDigitJS
  | _ => false

/-- `VALIDATION_CONSTANTS.BUTTON_CID_PATTERN`, `^0x[0-9a-fA-F]{2}$`. -/
def matchesButtonCidPat (s : String) : Bool :=
  match s.data with
  | '0' :: 'x' :: rest => rest.length = 2 && rest.all isHexDigitJS
  | _ => false

/-- `COMMON_LOGITECH_DEVICES` (name, vid, pid). -/
def COMMON_LOGITECH_DEVICES : List (String × String × String) :=
  [("MX Master 3S", "0x046d", "0x4082"),
   ("MX Master 2S", "0x046d", "0x4069"),
   ("G502 HERO", "0x046d", "0xc08b")]

/-- JS falsiness of an optional string field (`!device.vid`): absent or
empty. -/
def optStrFalsy : Option String → Bool
  | none => true
  | some s => decide (s = "")

/-- An optional string in a template literal (`${device.vid}`): `undefined`
renders as the word. -/
def optStrTL : Option String → String
  | none => "undefined"
  | some s => s

/-- JS `a < b` where `a` may be NaN (NaN comparisons are false). -/
def jltB (a : JNum) (b : ℚ) : Bool :=
  match a with
  | none => false
  | some q => decide (q < b)

/-- JS `a > b` where `a` may be NaN. -/
def jgtB (a : JNum) (b : ℚ) : Bool :=
  match a with
  | none => false
  | some q => decide (b < q)

/-- Truncation toward zero, as JS `%` divides. -/
def truncRat (x : ℚ) : ℤ :=
  if 0 ≤ x then Int.floor x else -Int.floor (-x)

/-- JS remainder `q % m` for finite operands (`m ≠ 0` in every use). -/
def jsRemainder (q m : ℚ) : ℚ := q - m * (truncRat (q / m) : ℚ)

/-- JS `a % m !== 0` where `a` may be NaN (then the remainder is NaN, which
is `!== 0`). -/
def jsModNeZero (a : JNum) (m : ℚ) : Bool :=
  match a with
  | none => true
  | some q => decide (jsRemainder q m ≠ 0)

/-- Embeds `validateDPISensor`.  In the typed embedding `sensor.dpi` is
always a JS number (NaN included), so the `typeof … !== 'number'` branch of
the source is constantly false and is omitted. -/
def validateDPISensor (sensor : DPISensor) (basePath : String) : ValidationResult :=
  let ew : List ValidationError × List ValidationError :=
    if jltB sensor.dpi DPI_MIN || jgtB sensor.dpi DPI_MAX then
      ([{ path := basePath ++ ".dpi"
          message := "DPI must be between 50 and 25600"
          severity := "error", field := some "dpi" }], [])
    else if jsModNeZero sensor.dpi 50 then
      ([], [{ path := basePath ++ ".dpi"
              message := "DPI values are typically multiples of 50"
              severity := "warning", field := some "dpi" }])
    else ([], [])
  { isValid := ew.1.length == 0, errors := ew.1, warnings := ew.2 }

/-- Embeds `validateDPISettings`.  The `!dpi.sensors || !Array.isArray(…)`
branch is constantly false on the typed model and is omitted. -/
def validateDPISettings (dpi : DPISettings) (basePath : String) : ValidationResult :=
  if dpi.sensors.length = 0 then
    let errors := [{ path := basePath ++ ".sensors"
                     message := "At least one DPI sensor must be configured"
                     severity := "error" : ValidationError }]
    { isValid := errors.length == 0, errors := errors, warnings := [] }
  else
    let perSensor := dpi.sensors.enum.map (fun p =>
      validateDPISensor p.2 (basePath ++ ".sensors[" ++ toString p.1 ++ "]"))
    let sensorErrors := (perSensor.map ValidationResult.errors).flatten
    let sensorWarnings := (perSensor.map ValidationResult.warnings).flatten
    let defaultCount := (dpi.sensors.filter sensorDefaultTruthy).length
    let extraWarnings :=
      if defaultCount = 0 then
        [{ path := basePath ++ ".sensors"
           message := "No default DPI sensor specified"
           severity := "warning" : ValidationError }]
      else []
    let extraErrors :=
      if defaultCount > 1 then
        [{ path := basePath ++ ".sensors"
           message := "Only one DPI sensor can be marked as default"
           severity := "error" : ValidationError }]
      else []
    let errors := sensorErrors ++ extraErrors
    let warnings := sensorWarnings ++ extraWarnings
    { isValid := errors.length == 0, errors := errors, warnings := warnings }

/-- Embeds `validateButtonAction`. -/
def validateButtonAction (action : ButtonAction) (basePath : String) :
    ValidationResult :=
  let validTypes := ["key", "gesture", "changeDPI", "toggleSmartShift",
    "cycleHiRes", "toggleHiRes"]
  let typeErrors : List ValidationError :=
    if action.type = "" then
      [{ path := basePath ++ ".type", message := "Action type is required"
         severity := "error", field := some "type" }]
    else if ¬ validTypes.contains action.type then
      [{ path := basePath ++ ".type"
         message := "Action type must be one of: key, gesture, changeDPI, toggleSmartShift, cycleHiRes, toggleHiRes"
         severity := "error", field := some "type" }]
    else []
  let keysErrors : List ValidationError :=
    match action.parameters with
    | some p =>
      match p.keys with
      | some ks =>
        if action.type = "key" ∧ ks.length = 0 then
          [{ path := basePath ++ ".parameters.keys"
             message := "Key action requires at least one key"
             severity := "error" }]
        else []
      | none => []
    | none => []
  let sensorErrors : List ValidationError :=
    match action.parameters with
    | some p =>
      match p.sensor with
      | some sn =>
        if action.type = "changeDPI" ∧ jltB sn 0 then
          [{ path := basePath ++ ".parameters.sensor"
             message := "Sensor index must be a non-negative number"
             severity := "error" }]
        else []
      | none => []
    | none => []
  let errors := typeErrors ++ keysErrors ++ sensorErrors
  { isValid := errors.length == 0, errors := errors, warnings := [] }

/-- Embeds `validateGestureMapping`. -/
def validateGestureMapping (gesture : GestureMapping) (basePath : String) :
    ValidationResult :=
  let validDirections := ["up", "down", "left", "right", "none"]
  let validModes := ["OnRelease", "OnFewPixels", "OnInterval"]
  let directionErrors : List ValidationError :=
    if gesture.direction = "" then
      [{ path := basePath ++ ".direction", message := "Gesture direction is required"
         severity := "error", field := some "direction" }]
    else if ¬ validDirections.contains gesture.direction then
      [{ path := basePath ++ ".direction"
         message := "Gesture direction must be one of: up, down, left, right, none"
         severity := "error", field := some "direction" }]
    else []
  let modeErrors : List ValidationError :=
    if gesture.mode = "" then
      [{ path := basePath ++ ".mode", message := "Gesture mode is required"
         severity := "error", field := some "mode" }]
    else if ¬ validModes.contains gesture.mode then
      [{ path := basePath ++ ".mode"
         message := "Gesture mode must be one of: OnRelease, OnFewPixels, OnInterval"
         severity := "error", field := some "mode" }]
    else []
  let thresholdErrors : List ValidationError :=
    match gesture.threshold with
    | some t =>
      if gesture.mode = "OnFewPixels" ∧
          (jltB t GESTURE_THRESHOLD_MIN || jgtB t GESTURE_THRESHOLD_MAX) then
        [{ path := basePath ++ ".threshold"
           message := "Threshold must be between 1 and 100"
           severity := "error", field := some "threshold" }]
      else []
    | none => []
  let intervalErrors : List ValidationError :=
    match gesture.interval with
    | some i =>
      if gesture.mode = "OnInterval" ∧
          (jltB i GESTURE_INTERVAL_MIN || jgtB i GESTURE_INTERVAL_MAX) then
        [{ path := basePath ++ ".interval"
           message := "Interval must be between 1 and 1000"
           severity := "error", field := some "interval" }]
      else []
    | none => []
  let actionResult := validateButtonAction gesture.action (basePath ++ ".action")
  let errors := directionErrors ++ modeErrors ++ thresholdErrors ++ intervalErrors ++
    actionResult.errors
  let warnings := actionResult.warnings
  { isValid := errors.length == 0, errors := errors, warnings := warnings }

/-- Embeds `validateButtonMapping`. -/
def validateButtonMapping (button : ButtonMapping) (basePath : String) :
    ValidationResult :=
  let cidErrors : List ValidationError :=
    if button.cid = "" then
      [{ path := basePath ++ ".cid", message := "Button control ID (cid) is required"
         severity := "error", field := some "cid" }]
    else if ¬ matchesButtonCidPat button.cid then
      [{ path := basePath ++ ".cid"
         message := "Button control ID must be in hexadecimal format (e.g., 0x52)"
         severity := "error", field := some "cid" }]
    else []
  let actionResult := validateButtonAction button.action (basePath ++ ".action")
  let errors := cidErrors ++ actionResult.errors
  { isValid := errors.length == 0, errors := errors
    warnings := actionResult.warnings }

/-- Embeds `validateScrollWheelSettings`.  The `typeof … !== 'boolean'`
branches are constantly false on the typed model and are omitted. -/
def validateScrollWheelSettings (scrollWheel : ScrollWheelSettings)
    (basePath : String) : ValidationResult :=
  let dirResult : String → Option ButtonAction → ValidationResult := fun dname oa =>
    match oa with
    | some a => validateButtonAction a (basePath ++ "." ++ dname)
    | none => { isValid := true, errors := [], warnings := [] }
  let results := [dirResult "up" scrollWheel.up, dirResult "down" scrollWheel.down,
    dirResult "left" scrollWheel.left, dirResult "right" scrollWheel.right]
  let errors := (results.map ValidationResult.errors).flatten
  let warnings := (results.map ValidationResult.warnings).flatten
  { isValid := errors.length == 0, errors := errors, warnings := warnings }

/-- Embeds `validateDevice`. -/
def validateDevice (device : Device) (basePath : String) :
    ValidationResult :=
  let nameErrors : List ValidationError :=
    if device.name = "" ∨ strTrim device.name = "" then
      [{ path := basePath ++ ".name", message := "Device name is required"
         severity := "error", field := some "name" }]
    else []
  let vidErrors : List ValidationError :=
    if optStrFalsy device.vid then
      [{ path := basePath ++ ".vid", message := "Vendor ID (vid) is required"
         severity := "error", field := some "vid" }]
    else if ¬ matchesDeviceIdPat (optStrTL device.vid) then
      [{ path := basePath ++ ".vid"
         message := "Vendor ID must be in hexadecimal format (e.g., 0x046d)"
         severity := "error", field := some "vid" }]
    else []
  let pidErrors : List ValidationError :=
    if optStrFalsy device.pid then
      [{ path := basePath ++ ".pid", message := "Product ID (pid) is required"
         severity := "error", field := some "pid" }]
    else if ¬ matchesDeviceIdPat (optStrTL device.pid) then
      [{ path := basePath ++ ".pid"
         message := "Product ID must be in hexadecimal format (e.g., 0x4082)"
         severity := "error", field := some "pid" }]
    else []
  let knownWarnings : List ValidationError :=
    if ¬ optStrFalsy device.vid ∧ ¬ optStrFalsy device.pid then
      if (COMMON_LOGITECH_DEVICES.find? (fun d =>
          some d.2.1 = device.vid ∧ some d.2.2 = device.pid)).isNone then
        [{ path := basePath
           message := "Device " ++ optStrTL device.vid ++ ":" ++ optStrTL device.pid ++
             " is not in the known devices list"
           severity := "warning" }]
      else []
    else []
  let dpiResult : ValidationResult := match device.dpi with
    | some d => validateDPISettings d (basePath ++ ".dpi")
    | none => { isValid := true, errors := [], warnings := [] }
  let buttonResults : List ValidationResult := match device.buttons with
    | some bs => bs.enum.map (fun p =>
        validateButtonMapping p.2 (basePath ++ ".buttons[" ++ toString p.1 ++ "]"))
    | none => []
  let gestureResults : List ValidationResult := match device.gestures with
    | some gs => gs.enum.map (fun p =>
        validateGestureMapping p.2 (basePath ++ ".gestures[" ++ toString p.1 ++ "]"))
    | none => []
  let scrollResult : ValidationResult := match device.scrollWheel with
    | some sw => validateScrollWheelSettings sw (basePath ++ ".scrollWheel")
    | none => { isValid := true, errors := [], warnings := [] }
  let errors := nameErrors ++ vidErrors ++ pidErrors ++ dpiResult.errors ++
    (buttonResults.map ValidationResult.errors).flatten ++
    (gestureResults.map ValidationResult.errors).flatten ++ scrollResult.errors
  let warnings := knownWarnings ++ dpiResult.warnings ++
    (buttonResults.map ValidationResult.warnings).flatten ++
    (gestureResults.map ValidationResult.warnings).flatten ++ scrollResult.warnings
  { isValid := errors.length == 0, errors := errors, warnings := warnings }

/-- Embeds `validateConfiguration`.  In the typed embedding `metadata` and
the `devices` array always exist, so the `!config.metadata` and
`!Array.isArray(config.devices)` branches of the source are constantly
false and are omitted. -/
def validateConfiguration (config : LogiopsConfiguration) : ValidationResult :=
  if config.devices.length = 0 then
    let warnings := [{ path := "devices", message := "No devices configured"
                       severity := "warning" : ValidationError }]
    { isValid := true, errors := [], warnings := warnings }
  else
    let deviceResults := config.devices.enum.map (fun p =>
      validateDevice p.2 ("devices[" ++ toString p.1 ++ "]"))
    let deviceErrors := (deviceResults.map ValidationResult.errors).flatten
    let deviceWarnings := (deviceResults.map ValidationResult.warnings).flatten
    let deviceIds := config.devices.map (fun d =>
      optStrTL d.vid ++ ":" ++ optStrTL d.pid)
    let duplicates := (deviceIds.enum.filter (fun p =>
      deviceIds.indexOf p.2 ≠ p.1)).map (fun p => p.2)
    let dupErrors : List ValidationError :=
      if duplicates ≠ [] then
        [{ path := "devices"
           message := "Duplicate devices found: " ++ String.intercalate ", " duplicates
           severity := "error" }]
      else []
    let errors := deviceErrors ++ dupErrors
    { isValid := errors.length == 0, errors := errors, warnings := deviceWarnings }

/-! ## Helper lemmas -/

theorem strAppend_data (a b : String) : (a ++ b).data = a.data ++ b.data := by
  cases a
  cases b
  rfl

theorem hex_not_ws (c : Char) (h : isHexDigitJS c = true) : isWsJS c = false := by
  rw [isHexDigitJS, decide_eq_true_eq] at h
  rw [isWsJS, decide_eq_false_iff_not]
  omega

theorem lowerHex_not_ws (c : Char) (h : isLowerHexDigit c = true) : isWsJS c = false := by
  rw [isLowerHexDigit, decide_eq_true_eq] at h
  rw [isWsJS, decide_eq_false_iff_not]
  omega

theorem toNat_charOfNat (n : Nat) (h : n < 55296) : (Char.ofNat n).toNat = n := by
  have hv : n.isValidChar := Or.inl h
  simp [Char.ofNat, hv]
  rfl

theorem lower_hex (c : Char) (h : isHexDigitJS c = true) :
    isLowerHexDigit (charToLowerJS c) = true := by
  rw [isHexDigitJS, decide_eq_true_eq] at h
  unfold charToLowerJS
  by_cases hc : 65 ≤ c.toNat ∧ c.toNat ≤ 90
  · rw [if_pos hc]
    have hv : (Char.ofNat (c.toNat + 32)).toNat = c.toNat + 32 :=
      toNat_charOfNat _ (by omega)
    rw [isLowerHexDigit, decide_eq_true_eq, hv]
    omega
  · rw [if_neg hc]
    rw [isLowerHexDigit, decide_eq_true_eq]
    omega

theorem lowerHex_toLower_fix (c : Char) (h : isLowerHexDigit c = true) :
    charToLowerJS c = c := by
  rw [isLowerHexDigit, decide_eq_true_eq] at h
  unfold charToLowerJS
  rw [if_neg (by omega)]

theorem char_ne_of_toNat_ne (c d : Char) (h : c.toNat ≠ d.toNat) : c ≠ d := by
  intro he
  exact h (congrArg Char.toNat he)

theorem dropWhile_eq_self_of_all (p : Char → Bool) (cs : List Char)
    (h : ∀ c ∈ cs, p c = false) : cs.dropWhile p = cs := by
  cases cs with
  | nil => rfl
  | cons c rest => simp [List.dropWhile, h c (by simp)]

theorem listTrim_eq_self (cs : List Char) (h : ∀ c ∈ cs, isWsJS c = false) :
    listTrim cs = cs := by
  unfold listTrim
  rw [dropWhile_eq_self_of_all _ _ h]
  rw [dropWhile_eq_self_of_all _ _ (by
    intro c hc
    exact h c (List.mem_reverse.mp hc))]
  exact List.reverse_reverse cs

theorem map_eq_self_of_fix (f : Char → Char) (l : List Char)
    (h : ∀ c ∈ l, f c = c) : l.map f = l := by
  induction l with
  | nil => rfl
  | cons c rest ih =>
    simp only [List.map_cons, h c (by simp)]
    rw [ih (fun c2 hc2 => h c2 (by simp [hc2]))]

theorem prefixB_0x_cons (lds : List Char) :
    listIsPrefixB ['0', 'x'] ('0' :: 'x' :: lds) = true := by
  simp [listIsPrefixB]

theorem prefixB_0x_lowerhex (lds : List Char)
    (hlh : ∀ c ∈ lds, isLowerHexDigit c = true) :
    listIsPrefixB ['0', 'x'] lds = false := by
  cases lds with
  | nil => rfl
  | cons d rest =>
    cases rest with
    | nil => simp [listIsPrefixB]
    | cons d2 rest2 =>
      have h2 := hlh d2 (by simp)
      rw [isLowerHexDigit, decide_eq_true_eq] at h2
      have hx : ('x').toNat = 120 := by decide
      have hne : ¬ ('x' = d2) := by
        intro he
        rw [← he] at h2
        omega
      show (decide ('0' = d) && (decide ('x' = d2) && listIsPrefixB [] rest2)) = false
      simp [hne]

/-- The single normalization step on an already-normalized string: trim and
lower-case fix `0x`‑prefixed lower-hex strings, and the `0x` test succeeds. -/
theorem normalizeHexValue_fix (lds : List Char) (hlh : ∀ c ∈ lds, isLowerHexDigit c = true) :
    normalizeHexValue ⟨'0' :: 'x' :: lds⟩ = ⟨'0' :: 'x' :: lds⟩ := by
  unfold normalizeHexValue
  have hnws : ∀ c ∈ '0' :: 'x' :: lds, isWsJS c = false := by
    intro c hc
    rcases List.mem_cons.mp hc with h0 | hc2
    · subst h0; decide
    · rcases List.mem_cons.mp hc2 with hx | hm
      · subst hx; decide
      · exact lowerHex_not_ws c (hlh c hm)
  have htrim : strTrim ⟨'0' :: 'x' :: lds⟩ = ⟨'0' :: 'x' :: lds⟩ := by
    show (⟨listTrim ('0' :: 'x' :: lds)⟩ : String) = _
    rw [listTrim_eq_self _ hnws]
  rw [htrim]
  have hmap : ('0' :: 'x' :: lds).map charToLowerJS = '0' :: 'x' :: lds := by
    apply map_eq_self_of_fix
    intro c hc
    rcases List.mem_cons.mp hc with h0 | hc2
    · subst h0; decide
    · rcases List.mem_cons.mp hc2 with hx | hm
      · subst hx; decide
      · exact lowerHex_toLower_fix c (hlh c hm)
  have hlow : strToLowerJS ⟨'0' :: 'x' :: lds⟩ = ⟨'0' :: 'x' :: lds⟩ := by
    show (⟨('0' :: 'x' :: lds).map charToLowerJS⟩ : String) = _
    rw [hmap]
  rw [hlow]
  have hsw : strStartsWith ⟨'0' :: 'x' :: lds⟩ "0x" = true := by
    show listIsPrefixB ("0x").data ('0' :: 'x' :: lds) = true
    exact prefixB_0x_cons lds
  simp [hsw]

/-! ## Claim theorems -/

theorem strAppend_0x (l : List Char) :
    ("0x" ++ (⟨l⟩ : String)) = (⟨'0' :: 'x' :: l⟩ : String) := rfl

/-- The normalization of any string of the shape `[0x|0X] hexdigits⁺` is the
lower-cased string with a (single) `0x` prefix. -/
theorem normalizeHexValue_shape (pre ds : List Char)
    (hpre : pre = [] ∨ pre = ['0', 'x'] ∨ pre = ['0', 'X'])
    (hhex : ∀ c ∈ ds, isHexDigitJS c = true) :
    normalizeHexValue ⟨pre ++ ds⟩ = ⟨'0' :: 'x' :: ds.map charToLowerJS⟩ := by
  have hlh : ∀ c ∈ ds.map charToLowerJS, isLowerHexDigit c = true := by
    intro c hc
    rcases List.mem_map.mp hc with ⟨a, ha, rfl⟩
    exact lower_hex a (hhex a ha)
  have hnwsds : ∀ c ∈ ds, isWsJS c = false := fun c hc => hex_not_ws c (hhex c hc)
  unfold normalizeHexValue
  rcases hpre with rfl | rfl | rfl
  · have htrim : strTrim ⟨[] ++ ds⟩ = ⟨ds⟩ := by
      show (⟨listTrim ([] ++ ds)⟩ : String) = _
      rw [List.nil_append, listTrim_eq_self _ hnwsds]
    rw [htrim]
    have hlow : strToLowerJS ⟨ds⟩ = ⟨ds.map charToLowerJS⟩ := rfl
    rw [hlow]
    have hsw : strStartsWith ⟨ds.map charToLowerJS⟩ "0x" = false := by
      show listIsPrefixB ("0x").data (ds.map charToLowerJS) = false
      exact prefixB_0x_lowerhex _ hlh
    simp [hsw, strAppend_0x]
  · have hnws : ∀ c ∈ '0' :: 'x' :: ds, isWsJS c = false := by
      intro c hc
      rcases List.mem_cons.mp hc with rfl | hc2
      · decide
      · rcases List.mem_cons.mp hc2 with rfl | hm
        · decide
        · exact hnwsds c hm
    have htrim : strTrim ⟨['0', 'x'] ++ ds⟩ = ⟨'0' :: 'x' :: ds⟩ := by
      show (⟨listTrim (['0', 'x'] ++ ds)⟩ : String) = _
      rw [show ['0', 'x'] ++ ds = '0' :: 'x' :: ds from rfl, listTrim_eq_self _ hnws]
    rw [htrim]
    have hlow : strToLowerJS ⟨'0' :: 'x' :: ds⟩ = ⟨'0' :: 'x' :: ds.map charToLowerJS⟩ := by
      show (⟨('0' :: 'x' :: ds).map charToLowerJS⟩ : String) = _
      simp [charToLowerJS]
    rw [hlow]
    have hsw : strStartsWith ⟨'0' :: 'x' :: ds.map charToLowerJS⟩ "0x" = true := by
      show listIsPrefixB ("0x").data _ = true
      exact prefixB_0x_cons _
    simp [hsw]
  · have hnws : ∀ c ∈ '0' :: 'X' :: ds, isWsJS c = false := by
      intro c hc
      rcases List.mem_cons.mp hc with rfl | hc2
      · decide
      · rcases List.mem_cons.mp hc2 with rfl | hm
        · decide
        · exact hnwsds c hm
    have htrim : strTrim ⟨['0', 'X'] ++ ds⟩ = ⟨'0' :: 'X' :: ds⟩ := by
      show (⟨listTrim (['0', 'X'] ++ ds)⟩ : String) = _
      rw [show ['0', 'X'] ++ ds = '0' :: 'X' :: ds from rfl, listTrim_eq_self _ hnws]
    rw [htrim]
    have hlow : strToLowerJS ⟨'0' :: 'X' :: ds⟩ = ⟨'0' :: 'x' :: ds.map charToLowerJS⟩ := by
      show (⟨('0' :: 'X' :: ds).map charToLowerJS⟩ : String) = _
      simp [charToLowerJS]
    rw [hlow]
    have hsw : strStartsWith ⟨'0' :: 'x' :: ds.map charToLowerJS⟩ "0x" = true := by
      show listIsPrefixB ("0x").data _ = true
      exact prefixB_0x_cons _
    simp [hsw]

/-- C6: for every non-empty string of hex digits in any case, optionally
preceded by `0x` or `0X` (no surrounding whitespace), `normalizeHexValue` is
idempotent — `normalize(h) = normalize(normalize(h))` — and its result
matches `^0x[0-9a-f]+$`. -/
theorem c6_hex_normalization_idempotent_total (h : String) (pre ds : List Char)
    (hpre : pre = [] ∨ pre = ['0', 'x'] ∨ pre = ['0', 'X'])
    (hne : ds ≠ []) (hhex : ∀ c ∈ ds, isHexDigitJS c = true)
    (hdata : h.data = pre ++ ds) :
    normalizeHexValue h = normalizeHexValue (normalizeHexValue h) ∧
    matchesLowerHexPat (normalizeHexValue h) = true := by
  obtain ⟨l⟩ := h
  have hl : l = pre ++ ds := hdata
  subst hl
  have hlh : ∀ c ∈ ds.map charToLowerJS, isLowerHexDigit c = true := by
    intro c hc
    rcases List.mem_map.mp hc with ⟨a, ha, rfl⟩
    exact lower_hex a (hhex a ha)
  rw [normalizeHexValue_shape pre ds hpre hhex]
  refine ⟨(normalizeHexValue_fix _ hlh).symm, ?_⟩
  show matchesLowerHexPat ⟨'0' :: 'x' :: ds.map charToLowerJS⟩ = true
  unfold matchesLowerHexPat
  have hmapne : ds.map charToLowerJS ≠ [] := by
    intro hmap
    exact hne (List.map_eq_nil_iff.mp hmap)
  simp only [Bool.and_eq_true, Bool.not_eq_true']
  constructor
  · simpa [List.isEmpty_iff] using hmapne
  · exact List.all_eq_true.mpr (fun c hc => hlh c hc)

/-- C6 witness: the theorem applied at the concrete input `"0X4bE9"`. -/
theorem c6_witness :
    normalizeHexValue "0X4bE9" = normalizeHexValue (normalizeHexValue "0X4bE9") ∧
    matchesLowerHexPat (normalizeHexValue "0X4bE9") = true :=
  c6_hex_normalization_idempotent_total "0X4bE9" ['0', 'X'] ['4', 'b', 'E', '9']
    (by simp) (by simp) (by decide) (by decide)

theorem length_beq_zero_iff (l : List ValidationError) :
    ((l.length == 0) = true ↔ l = []) := by
  simp

/-- C10: every exported validator returns `isValid` true exactly when its
error list is empty; warnings alone never make `isValid` false. -/
theorem c10_validators_isValid_iff_no_errors :
    (∀ config : LogiopsConfiguration,
      ((validateConfiguration config).isValid = true ↔
        (validateConfiguration config).errors = [])) ∧
    (∀ (device : Device) (p : String),
      ((validateDevice device p).isValid = true ↔ (validateDevice device p).errors = [])) ∧
    (∀ (dpi : DPISettings) (p : String),
      ((validateDPISettings dpi p).isValid = true ↔
        (validateDPISettings dpi p).errors = [])) ∧
    (∀ (sensor : DPISensor) (p : String),
      ((validateDPISensor sensor p).isValid = true ↔
        (validateDPISensor sensor p).errors = [])) ∧
    (∀ (button : ButtonMapping) (p : String),
      ((validateButtonMapping button p).isValid = true ↔
        (validateButtonMapping button p).errors = [])) ∧
    (∀ (action : ButtonAction) (p : String),
      ((validateButtonAction action p).isValid = true ↔
        (validateButtonAction action p).errors = [])) ∧
    (∀ (gesture : GestureMapping) (p : String),
      ((validateGestureMapping gesture p).isValid = true ↔
        (validateGestureMapping gesture p).errors = [])) ∧
    (∀ (scrollWheel : ScrollWheelSettings) (p : String),
      ((validateScrollWheelSettings scrollWheel p).isValid = true ↔
        (validateScrollWheelSettings scrollWheel p).errors = [])) := by
  refine ⟨?_, ?_, ?_, ?_, ?_, ?_, ?_, ?_⟩
  · intro config
    unfold validateConfiguration
    split
    · simp
    · exact length_beq_zero_iff _
  · intro device p
    exact length_beq_zero_iff _
  · intro dpi p
    unfold validateDPISettings
    split
    · exact length_beq_zero_iff _
    · exact length_beq_zero_iff _
  · intro sensor p
    exact length_beq_zero_iff _
  · intro button p
    exact length_beq_zero_iff _
  · intro action p
    exact length_beq_zero_iff _
  · intro gesture p
    exact length_beq_zero_iff _
  · intro scrollWheel p
    exact length_beq_zero_iff _

theorem snd_mem_of_mem_enum {α : Type} {l : List α} {x : Nat × α}
    (hx : x ∈ l.enum) : x.2 ∈ l :=
  List.get?_mem (List.mem_enum_iff_get?.mp hx)

theorem flatten_nil_of_all_nil {α β : Type} (l : List α) (f : α → List β)
    (h : ∀ x ∈ l, f x = []) : (l.map f).flatten = [] := by
  induction l with
  | nil => rfl
  | cons x rest ih =>
    simp only [List.map_cons, List.flatten_cons, h x (by simp)]
    exact ih (fun y hy => h y (by simp [hy]))

theorem validateDPISensor_clean (sensor : DPISensor) (p : String) (q : ℚ)
    (hq : sensor.dpi = some q) (hlo : 50 ≤ q) (hhi : q ≤ 25600)
    (hmod : jsRemainder q 50 = 0) :
    (validateDPISensor sensor p).errors = [] ∧
    (validateDPISensor sensor p).warnings = [] := by
  unfold validateDPISensor
  have h1 : jltB sensor.dpi DPI_MIN = false := by
    rw [hq]
    show decide (q < DPI_MIN) = false
    rw [decide_eq_false_iff_not]
    rw [DPI_MIN]
    exact not_lt.mpr hlo
  have h2 : jgtB sensor.dpi DPI_MAX = false := by
    rw [hq]
    show decide (DPI_MAX < q) = false
    rw [decide_eq_false_iff_not]
    rw [DPI_MAX]
    exact not_lt.mpr hhi
  have h3 : jsModNeZero sensor.dpi 50 = false := by
    rw [hq]
    show decide (jsRemainder q 50 ≠ 0) = false
    simp [hmod]
  rw [h1, h2, h3]
  simp

/-- C7: under well-formed sensors (numeric dpi in [50, 25600], a multiple of
50), `validateDPISettings` yields no diagnostics when exactly one sensor is
default, exactly one "No default DPI sensor" warning (and no errors) when no
sensor is, and exactly one "Only one DPI sensor can be marked as default"
error when several are. -/
theorem c7_dpi_default_sensor_rule (dpi : DPISettings) (basePath : String)
    (hne : dpi.sensors ≠ [])
    (hsens : ∀ s ∈ dpi.sensors, ∃ q : ℚ, s.dpi = some q ∧ 50 ≤ q ∧ q ≤ 25600 ∧
      jsRemainder q 50 = 0) :
    ((dpi.sensors.filter sensorDefaultTruthy).length = 1 →
      (validateDPISettings dpi basePath).errors = [] ∧
      (validateDPISettings dpi basePath).warnings = []) ∧
    ((dpi.sensors.filter sensorDefaultTruthy).length = 0 →
      (validateDPISettings dpi basePath).errors = [] ∧
      ∃ w, (validateDPISettings dpi basePath).warnings = [w] ∧
        ∃ pre post, w.message = pre ++ "No default DPI sensor" ++ post) ∧
    (2 ≤ (dpi.sensors.filter sensorDefaultTruthy).length →
      ∃ e, (validateDPISettings dpi basePath).errors = [e] ∧
        ∃ pre post, e.message = pre ++ "Only one DPI sensor can be marked as default" ++ post) := by
  unfold validateDPISettings
  rw [if_neg (by simpa [List.length_eq_zero] using hne)]
  have herr : ((dpi.sensors.enum.map (fun p =>
      validateDPISensor p.2 (basePath ++ ".sensors[" ++ toString p.1 ++ "]"))).map
      ValidationResult.errors).flatten = [] := by
    rw [List.map_map]
    apply flatten_nil_of_all_nil
    intro x hx
    have hx2 : x.2 ∈ dpi.sensors := snd_mem_of_mem_enum hx
    rcases hsens x.2 hx2 with ⟨q, hq, hlo, hhi, hmod⟩
    exact (validateDPISensor_clean _ _ q hq hlo hhi hmod).1
  have hwarn : ((dpi.sensors.enum.map (fun p =>
      validateDPISensor p.2 (basePath ++ ".sensors[" ++ toString p.1 ++ "]"))).map
      ValidationResult.warnings).flatten = [] := by
    rw [List.map_map]
    apply flatten_nil_of_all_nil
    intro x hx
    have hx2 : x.2 ∈ dpi.sensors := snd_mem_of_mem_enum hx
    rcases hsens x.2 hx2 with ⟨q, hq, hlo, hhi, hmod⟩
    exact (validateDPISensor_clean _ _ q hq hlo hhi hmod).2
  refine ⟨?_, ?_, ?_⟩
  · intro hdc
    have h0 : ¬ (dpi.sensors.filter sensorDefaultTruthy).length = 0 := by omega
    have h1 : ¬ (dpi.sensors.filter sensorDefaultTruthy).length > 1 := by omega
    simp only [herr, hwarn, if_neg h0, if_neg h1]
    simp
  · intro hdc
    have h1 : ¬ (dpi.sensors.filter sensorDefaultTruthy).length > 1 := by omega
    simp only [herr, hwarn, if_pos hdc, if_neg h1]
    refine ⟨by simp, ?_⟩
    refine ⟨⟨basePath ++ ".sensors", "No default DPI sensor specified", "warning", none⟩,
      by simp, "", " specified", rfl⟩
  · intro hdc
    have h0 : ¬ (dpi.sensors.filter sensorDefaultTruthy).length = 0 := by omega
    have h1 : (dpi.sensors.filter sensorDefaultTruthy).length > 1 := by omega
    simp only [herr, hwarn, if_neg h0, if_pos h1]
    refine ⟨⟨basePath ++ ".sensors", "Only one DPI sensor can be marked as default",
      "error", none⟩, by simp, "", "", rfl⟩

/-- C7 witness: the rule applied to one concrete sensor list per case is not
needed — a single instantiation discharges the hypotheses; here two sensors,
exactly one default. -/
theorem c7_witness :
    (((DPISettings.mk [DPISensor.mk (some 1000) (some true),
        DPISensor.mk (some 1600) (some false)]).sensors.filter
        sensorDefaultTruthy).length = 1 →
      (validateDPISettings (DPISettings.mk [DPISensor.mk (some 1000) (some true),
        DPISensor.mk (some 1600) (some false)]) "devices[0].dpi").errors = [] ∧
      (validateDPISettings (DPISettings.mk [DPISensor.mk (some 1000) (some true),
        DPISensor.mk (some 1600) (some false)]) "devices[0].dpi").warnings = []) ∧
    (((DPISettings.mk [DPISensor.mk (some 1000) (some true),
        DPISensor.mk (some 1600) (some false)]).sensors.filter
        sensorDefaultTruthy).length = 0 →
      (validateDPISettings (DPISettings.mk [DPISensor.mk (some 1000) (some true),
        DPISensor.mk (some 1600) (some false)]) "devices[0].dpi").errors = [] ∧
      ∃ w, (validateDPISettings (DPISettings.mk [DPISensor.mk (some 1000) (some true),
          DPISensor.mk (some 1600) (some false)]) "devices[0].dpi").warnings = [w] ∧
        ∃ pre post, w.message = pre ++ "No default DPI sensor" ++ post) ∧
    (2 ≤ ((DPISettings.mk [DPISensor.mk (some 1000) (some true),
        DPISensor.mk (some 1600) (some false)]).sensors.filter
        sensorDefaultTruthy).length →
      ∃ e, (validateDPISettings (DPISettings.mk [DPISensor.mk (some 1000) (some true),
          DPISensor.mk (some 1600) (some false)]) "devices[0].dpi").errors = [e] ∧
        ∃ pre post, e.message = pre ++ "Only one DPI sensor can be marked as default" ++ post) :=
  c7_dpi_default_sensor_rule
    (DPISettings.mk [DPISensor.mk (some 1000) (some true),
      DPISensor.mk (some 1600) (some false)]) "devices[0].dpi"
    (by simp)
    (by
      intro s hs
      simp only [List.mem_cons, List.not_mem_nil, or_false] at hs
      rcases hs with rfl | rfl
      · exact ⟨1000, rfl, by norm_num, by norm_num, by norm_num [jsRemainder, truncRat]⟩
      · exact ⟨1600, rfl, by norm_num, by norm_num, by norm_num [jsRemainder, truncRat]⟩)

theorem indexOf_le_of_get {α : Type} [DecidableEq α] (l : List α) :
    ∀ (m : Nat) (hm : m < l.length), l.indexOf (l.get ⟨m, hm⟩) ≤ m := by
  induction l with
  | nil => intro m hm; simp at hm
  | cons x xs ih =>
    intro m hm
    cases m with
    | zero => simp [List.indexOf_cons_self]
    | succ m2 =>
      have hm2 : m2 < xs.length := by simpa using hm
      by_cases hxa : x = xs.get ⟨m2, hm2⟩
      · have : (x :: xs).get ⟨m2 + 1, hm⟩ = x := by simp [hxa]
        rw [this, List.indexOf_cons_self]
        omega
      · have hg : (x :: xs).get ⟨m2 + 1, hm⟩ = xs.get ⟨m2, hm2⟩ := by simp
        rw [hg]
        rw [List.indexOf_cons_ne _ (by exact fun h => hxa h)]
        have := ih m2 hm2
        omega

/-- C8: two devices sharing (vid, pid) make `validateConfiguration` return
`isValid := false` with an error message containing "Duplicate devices". -/
theorem c8_duplicate_devices (config : LogiopsConfiguration) (i j : Nat)
    (hij : i < j) (hj : j < config.devices.length)
    (hvid : (config.devices.get ⟨i, by omega⟩).vid = (config.devices.get ⟨j, hj⟩).vid)
    (hpid : (config.devices.get ⟨i, by omega⟩).pid = (config.devices.get ⟨j, hj⟩).pid) :
    (validateConfiguration config).isValid = false ∧
    ∃ e ∈ (validateConfiguration config).errors,
      ∃ pre post, e.message = pre ++ "Duplicate devices" ++ post := by
  have hi : i < config.devices.length := by omega
  have hlen : ¬ config.devices.length = 0 := by omega
  unfold validateConfiguration
  rw [if_neg hlen]
  set deviceIds := config.devices.map (fun d => optStrTL d.vid ++ ":" ++ optStrTL d.pid)
    with hids
  have hjlen : j < deviceIds.length := by
    rw [hids, List.length_map]
    exact hj
  have hilen : i < deviceIds.length := by omega
  have e1 : deviceIds.get ⟨i, hilen⟩ =
      optStrTL (config.devices.get ⟨i, hi⟩).vid ++ ":" ++
        optStrTL (config.devices.get ⟨i, hi⟩).pid := by
    simp [hids, List.get_eq_getElem, List.getElem_map]
  have e2 : deviceIds.get ⟨j, hjlen⟩ =
      optStrTL (config.devices.get ⟨j, hj⟩).vid ++ ":" ++
        optStrTL (config.devices.get ⟨j, hj⟩).pid := by
    simp [hids, List.get_eq_getElem, List.getElem_map]
  have hkey : deviceIds.get ⟨i, hilen⟩ = deviceIds.get ⟨j, hjlen⟩ := by
    rw [e1, e2, hvid, hpid]
  have hidx : deviceIds.indexOf (deviceIds.get ⟨j, hjlen⟩) ≤ i := by
    rw [← hkey]
    exact indexOf_le_of_get deviceIds i hilen
  have hmemdup : deviceIds.get ⟨j, hjlen⟩ ∈
      (deviceIds.enum.filter (fun p => deviceIds.indexOf p.2 ≠ p.1)).map
        (fun p => p.2) := by
    apply List.mem_map.mpr
    refine ⟨(j, deviceIds.get ⟨j, hjlen⟩), ?_, rfl⟩
    apply List.mem_filter.mpr
    constructor
    · apply List.mem_enum_iff_getElem?.mpr
      simp [List.getElem?_eq_getElem hjlen, List.get_eq_getElem]
    · simp only [decide_eq_true_eq]
      omega
  have hdup : (deviceIds.enum.filter (fun p => deviceIds.indexOf p.2 ≠ p.1)).map
      (fun p => p.2) ≠ [] := List.ne_nil_of_mem hmemdup
  simp only [if_pos hdup]
  constructor
  · simp
  · refine ⟨⟨"devices",
      "Duplicate devices found: " ++ String.intercalate ", "
        ((deviceIds.enum.filter (fun p => deviceIds.indexOf p.2 ≠ p.1)).map
          (fun p => p.2)),
      "error", none⟩, ?_, ?_⟩
    · simp
    · refine ⟨"", " found: " ++ String.intercalate ", "
        ((deviceIds.enum.filter (fun p => deviceIds.indexOf p.2 ≠ p.1)).map
          (fun p => p.2)), ?_⟩
      show "Duplicate devices found: " ++ _ =
        "" ++ "Duplicate devices" ++ (" found: " ++ _)
      rw [← String.append_assoc]
      rfl

/-- C8 witness: two concrete devices with equal vid/pid. -/
theorem c8_witness :
    (validateConfiguration (LogiopsConfiguration.mk
      [Device.mk "A" (some "0x046d") (some "0x4082") none none none none none none,
       Device.mk "B" (some "0x046d") (some "0x4082") none none none none none none]
      (ConfigurationMetadata.mk "1.0.0" "c" "m" none none))).isValid = false ∧
    ∃ e ∈ (validateConfiguration (LogiopsConfiguration.mk
      [Device.mk "A" (some "0x046d") (some "0x4082") none none none none none none,
       Device.mk "B" (some "0x046d") (some "0x4082") none none none none none none]
      (ConfigurationMetadata.mk "1.0.0" "c" "m" none none))).errors,
      ∃ pre post, e.message = pre ++ "Duplicate devices" ++ post :=
  c8_duplicate_devices
    (LogiopsConfiguration.mk
      [Device.mk "A" (some "0x046d") (some "0x4082") none none none none none none,
       Device.mk "B" (some "0x046d") (some "0x4082") none none none none none none]
      (ConfigurationMetadata.mk "1.0.0" "c" "m" none none))
    0 1 (by omega) (by decide) rfl rfl

/-- C1 (refuting evaluation): a device block with `name` and `vid` but no
`pid` parses without any error — `parseConfigFile` returns a configuration
that keeps the incomplete device with `pid = ""` instead of raising a
`ConfigParseError` containing "missing required properties" (which the
repository's own tests `configParser.test.ts` expect). -/
theorem c1_missing_pid_returns_config :
    parseConfigFileM "devices: (\x7b\n  name: \"Test Device\";\n  vid: 0x1234;\n\x7d);" none =
      Except.ok (LogiopsConfiguration.mk
        [Device.mk "Test Device" (some "0x1234") (some "") none none none none none none]
        (ConfigurationMetadata.mk "1.0.0" newDateISO newDateISO none
          (some "devices: (\x7b\n  name: \"Test Device\";\n  vid: 0x1234;\n\x7d);"))) := rfl

set_option maxRecDepth 16384 in
/-- C2 (refuting evaluation): repeated `devices` entries are not
accumulated — the generic object rule "last value wins" applies, so only the
second device survives; and the single-object spelling `devices: { … }` is
not accepted as one device: the device loop raises the `TypeError`
"devicesData is not iterable", which surfaces as a `ConfigParseError`. -/
theorem c2_devices_not_accumulated :
    (parseConfigFileM
      "devices: (\x7b\n  name: \"A\";\n  vid: 0x1111;\n  pid: 0x2222;\n\x7d);\ndevices: (\x7b\n  name: \"B\";\n  vid: 0x3333;\n  pid: 0x4444;\n\x7d);"
      none =
      Except.ok (LogiopsConfiguration.mk
        [Device.mk "B" (some "0x3333") (some "0x4444") none none none none none none]
        (ConfigurationMetadata.mk "1.0.0" newDateISO newDateISO none
          (some
            "devices: (\x7b\n  name: \"A\";\n  vid: 0x1111;\n  pid: 0x2222;\n\x7d);\ndevices: (\x7b\n  name: \"B\";\n  vid: 0x3333;\n  pid: 0x4444;\n\x7d);")))) ∧
    (parseConfigFileM "devices: \x7b\n  name: \"A\";\n  vid: 0x1111;\n  pid: 0x2222;\n\x7d;"
      none =
      Except.error (ConfigParseError.mk
        "Failed to parse configuration file: devicesData is not iterable" none none)) :=
  ⟨rfl, rfl⟩

/-- C3 (refuting evaluation): an object missing its closing `}` before end
of input is returned as a silent partial object by the generic parser — no
error, let alone one containing "Unclosed section" — and the whole
`validateConfigSyntax` path reports the text as valid. -/
theorem c3_unclosed_section_silently_accepted :
    (parseLibconfigRes "buttons: \x7b\n  hires: true;" =
      Except.ok (JSVal.obj [("buttons", JSVal.obj [("hires", JSVal.bool true)])])) ∧
    (validateConfigSyntax "buttons: \x7b\n  hires: true;" = (true, [])) :=
  ⟨rfl, rfl⟩

/-- C5: a scroll-wheel directional entry with `mode` and `axis` members but
no (truthy) `type` member is not dropped and not sent through the typed
action parser: the mapper synthesizes the pseudo-axis action — spelled with
type `cycleHiRes` by this code — carrying that mode, axis, and (when
present) axis_multiplier, and stores it for that direction. -/
theorem c5_scrollwheel_axis_special_case (fuel : Nat) (data dd : JSVal) (dir : String)
    (hdir : dir = "up" ∨ dir = "down" ∨ dir = "left" ∨ dir = "right")
    (hdd : getField data dir = some dd)
    (htr : truthy dd = true)
    (hty : truthyOpt (getField dd "type") = false)
    (hmo : truthyOpt (getField dd "mode") = true)
    (hax : truthyOpt (getField dd "axis") = true) :
    scrollDirField (parseScrollWheelFromDataF fuel data) dir =
      some (ButtonAction.mk "cycleHiRes" (some (apAxis
        (jsToStringOptF fuel (getField dd "mode"))
        (jsToStringOptF fuel (getField dd "axis"))
        ((getField dd "axis_multiplier").map (jsToNumberF fuel))))) := by
  have hcase : ∀ dname : String, getField data dname = some dd →
      (match getField data dname with
        | none => none
        | some dv =>
          if ¬ truthy dv then none
          else if ¬ truthyOpt (getField dv "type") ∧ truthyOpt (getField dv "mode") ∧
              truthyOpt (getField dv "axis") then
            some (ButtonAction.mk "cycleHiRes" (some (apAxis
              (jsToStringOptF fuel (getField dv "mode"))
              (jsToStringOptF fuel (getField dv "axis"))
              ((getField dv "axis_multiplier").map (jsToNumberF fuel)))))
          else parseActionFromDataF fuel (some dv)) =
      some (ButtonAction.mk "cycleHiRes" (some (apAxis
        (jsToStringOptF fuel (getField dd "mode"))
        (jsToStringOptF fuel (getField dd "axis"))
        ((getField dd "axis_multiplier").map (jsToNumberF fuel))))) := by
    intro dname hname
    rw [hname]
    dsimp only
    rw [if_neg (by simp [htr])]
    rw [if_pos ⟨by simp [hty], hmo, hax⟩]
  rcases hdir with rfl | rfl | rfl | rfl
  · show (parseScrollWheelFromDataF fuel data).up = _
    unfold parseScrollWheelFromDataF
    exact hcase "up" hdd
  · show (parseScrollWheelFromDataF fuel data).down = _
    unfold parseScrollWheelFromDataF
    exact hcase "down" hdd
  · show (parseScrollWheelFromDataF fuel data).left = _
    unfold parseScrollWheelFromDataF
    exact hcase "left" hdd
  · show (parseScrollWheelFromDataF fuel data).right = _
    unfold parseScrollWheelFromDataF
    exact hcase "right" hdd

/-- C5 witness: a concrete `up` entry carrying mode/axis/axis_multiplier and
no `type`. -/
theorem c5_witness :
    scrollDirField (parseScrollWheelFromDataF 9
      (JSVal.obj [("up", JSVal.obj [("mode", JSVal.str "OnInterval"),
        ("axis", JSVal.str "REL_WHEELHIRES"), ("axis_multiplier", JSVal.str "2")])]))
      "up" =
    some (ButtonAction.mk "cycleHiRes" (some (apAxis
      (jsToStringOptF 9 (getField (JSVal.obj [("mode", JSVal.str "OnInterval"),
        ("axis", JSVal.str "REL_WHEELHIRES"), ("axis_multiplier", JSVal.str "2")]) "mode"))
      (jsToStringOptF 9 (getField (JSVal.obj [("mode", JSVal.str "OnInterval"),
        ("axis", JSVal.str "REL_WHEELHIRES"), ("axis_multiplier", JSVal.str "2")]) "axis"))
      ((getField (JSVal.obj [("mode", JSVal.str "OnInterval"),
        ("axis", JSVal.str "REL_WHEELHIRES"), ("axis_multiplier", JSVal.str "2")])
        "axis_multiplier").map (jsToNumberF 9))))) :=
  c5_scrollwheel_axis_special_case 9
    (JSVal.obj [("up", JSVal.obj [("mode", JSVal.str "OnInterval"),
      ("axis", JSVal.str "REL_WHEELHIRES"), ("axis_multiplier", JSVal.str "2")])])
    (JSVal.obj [("mode", JSVal.str "OnInterval"), ("axis", JSVal.str "REL_WHEELHIRES"),
      ("axis_multiplier", JSVal.str "2")])
    "up" (Or.inl rfl) rfl rfl rfl rfl rfl

theorem scanStr_rest_len : ∀ (n : Nat) (cs : List Char), cs.length ≤ n →
    (scanStr cs).2.1.length ≤ cs.length := by
  intro n
  induction n with
  | zero =>
    intro cs h
    have : cs = [] := List.eq_nil_of_length_eq_zero (by omega)
    subst this
    rw [scanStr.eq_def]
  | succ n ih =>
    intro cs h
    match cs with
    | [] =>
      rw [scanStr.eq_def]
    | c :: rest =>
      rw [scanStr.eq_def]
      dsimp only
      by_cases h1 : c = '"'
      · rw [if_pos h1]
        simp
      · rw [if_neg h1]
        by_cases h2 : c = '\\'
        · rw [if_pos h2]
          match rest with
          | [] => simp
          | e :: rest2 =>
            have hr : (scanStr rest2).2.1.length ≤ rest2.length := by
              apply ih
              simp at h
              omega
            dsimp only
            simp only [List.length_cons]
            omega
        · rw [if_neg h2]
          have hr : (scanStr rest).2.1.length ≤ rest.length := by
            apply ih
            simp at h
            omega
          dsimp only
          simp only [List.length_cons]
          omega

theorem dropWhile_cons_pos_len (p : Char → Bool) (c : Char) (rest : List Char)
    (h : p c = true) : (List.dropWhile p (c :: rest)).length ≤ rest.length := by
  rw [List.dropWhile_cons_of_pos h]
  exact (List.dropWhile_sublist p).length_le

theorem isIdentStart_isIdentChar (c : Char) (h : isIdentStart c = true) :
    isIdentChar c = true := by
  rw [isIdentStart, decide_eq_true_eq] at h
  rw [isIdentChar, decide_eq_true_eq]
  omega

theorem isDigit_isDecNumChar (c : Char) (h : isDigitJS c = true) :
    isDecNumChar c = true := by
  unfold isDecNumChar
  rw [h]
  rfl

theorem tokLineF_fuel_irrelevant : ∀ (f ln col : Nat) (cs : List Char),
    cs.length < f → tokLineF f ln col cs = tokLineF (cs.length + 1) ln col cs := by
  intro f
  induction f using Nat.strong_induction_on with
  | _ f ih =>
    intro ln col cs hlt
    match f, cs with
    | 0, _ => omega
    | f2 + 1, [] => rfl
    | f2 + 1, c :: rest =>
      have hrestf : rest.length < f2 := by
        simp only [List.length_cons] at hlt
        omega
      have key : ∀ (g : Nat) (col2 : Nat) (rest2 : List Char), g < f2 + 1 →
          rest2.length < g → rest2.length ≤ rest.length →
          tokLineF g ln col2 rest2 = tokLineF (rest.length + 1) ln col2 rest2 := by
        intro g col2 rest2 hgf hrg hrr
        rw [ih g hgf ln col2 rest2 hrg]
        rw [ih (rest.length + 1) (by omega) ln col2 rest2 (by omega)]
      rw [show (c :: rest).length + 1 = (rest.length + 1) + 1 by simp]
      rw [tokLineF.eq_def]
      conv_rhs => rw [tokLineF.eq_def]
      dsimp only
      by_cases h1 : isWsJS c = true
      · rw [if_pos h1, if_pos h1]
        exact key f2 (col + 1) rest (by omega) hrestf (by omega)
      · rw [if_neg h1, if_neg h1]
        by_cases h2 : (decide (c = '/') && decide (rest.headD ' ' = '/') && decide (rest ≠ [])) = true
        · rw [if_pos h2, if_pos h2]
        · rw [if_neg h2, if_neg h2]
          by_cases h3 : c = '#'
          · rw [if_pos h3, if_pos h3]
          · rw [if_neg h3, if_neg h3]
            by_cases h4 : c = '"'
            · rw [if_pos h4, if_pos h4]
              have hscan : (scanStr rest).2.1.length ≤ rest.length :=
                scanStr_rest_len rest.length rest (le_refl _)
              congr 1
              exact key f2 (col + 1 + (scanStr rest).2.2) (scanStr rest).2.1
                (by omega) (by omega) hscan
            · rw [if_neg h4, if_neg h4]
              by_cases h5 : isDigitJS c = true
              · rw [if_pos h5, if_pos h5]
                by_cases h6 : (decide (c = '0') && decide (rest.headD ' ' = 'x') && decide (rest ≠ [])) = true
                · rw [if_pos h6, if_pos h6]
                  have hdw : (rest.tail.dropWhile isHexDigitJS).length ≤ rest.length := by
                    calc (rest.tail.dropWhile isHexDigitJS).length
                        ≤ rest.tail.length := (List.dropWhile_sublist _).length_le
                      _ ≤ rest.length := by
                          cases rest <;> simp
                  congr 1
                  exact key f2 (col + 2 + (rest.tail.takeWhile isHexDigitJS).length)
                    (rest.tail.dropWhile isHexDigitJS) (by omega) (by omega) hdw
                · rw [if_neg h6, if_neg h6]
                  have hdw : ((c :: rest).dropWhile isDecNumChar).length ≤ rest.length :=
                    dropWhile_cons_pos_len _ _ _ (isDigit_isDecNumChar c h5)
                  congr 1
                  exact key f2 (col + ((c :: rest).takeWhile isDecNumChar).length)
                    ((c :: rest).dropWhile isDecNumChar) (by omega) (by omega) hdw
              · rw [if_neg h5, if_neg h5]
                by_cases h7 : isIdentStart c = true
                · rw [if_pos h7, if_pos h7]
                  have hdw : ((c :: rest).dropWhile isIdentChar).length ≤ rest.length :=
                    dropWhile_cons_pos_len _ _ _ (isIdentStart_isIdentChar c h7)
                  congr 1
                  exact key f2 (col + ((c :: rest).takeWhile isIdentChar).length)
                    ((c :: rest).dropWhile isIdentChar) (by omega) (by omega) hdw
                · rw [if_neg h7, if_neg h7]
                  by_cases h8 : isOpDelim c = true
                  · rw [if_pos h8, if_pos h8]
                    congr 1
                    exact key f2 (col + 1) rest (by omega) hrestf (by omega)
                  · rw [if_neg h8, if_neg h8]
                    exact key f2 (col + 1) rest (by omega) hrestf (by omega)

/-- C9: the tokenizer's per-line loop terminates for every input — any fuel
beyond the line length (in particular the `cs.length + 1` the wrapper
supplies) computes the same token list, so the loop completes within its
budget and returns a token list without any error path — and a character no
branch recognizes contributes no token: the scanner just moves one column
to the right. -/
theorem c9_tokenizer_total_and_skips_unrecognized :
    (∀ (f ln col : Nat) (cs : List Char), cs.length < f →
      tokLineF f ln col cs = tokLineF (cs.length + 1) ln col cs) ∧
    (∀ (f ln col : Nat) (c : Char) (rest : List Char),
      unrecognizedAt c rest = true →
      tokLineF (f + 1) ln col (c :: rest) = tokLineF f ln (col + 1) rest) := by
  constructor
  · exact tokLineF_fuel_irrelevant
  · intro f ln col c rest h
    rw [unrecognizedAt] at h
    simp only [Bool.and_eq_true, Bool.not_eq_true'] at h
    obtain ⟨⟨⟨⟨⟨⟨hws, hsl⟩, hh⟩, hq⟩, hd⟩, his⟩, hod⟩ := h
    rw [tokLineF.eq_def]
    dsimp only
    rw [if_neg (by simp only [hws]; decide), if_neg (by simp only [hsl]; decide),
      if_neg (of_decide_eq_false hh), if_neg (of_decide_eq_false hq),
      if_neg (by simp only [hd]; decide), if_neg (by simp only [his]; decide),
      if_neg (by simp only [hod]; decide)]

/-- C9 witness: fuel irrelevance on a concrete two-character line, and the
unrecognized character `@` skipped on a concrete line. -/
theorem c9_witness :
    ((['a', 'b'] : List Char).length < 5 ∧
      tokLineF 5 1 0 ['a', 'b'] = tokLineF ((['a', 'b'] : List Char).length + 1) 1 0 ['a', 'b']) ∧
    (unrecognizedAt '@' ['a'] = true ∧
      tokLineF (3 + 1) 1 0 ('@' :: ['a']) = tokLineF 3 1 (0 + 1) ['a']) :=
  ⟨⟨by decide, c9_tokenizer_total_and_skips_unrecognized.1 5 1 0 ['a', 'b'] (by decide)⟩,
   ⟨by decide, c9_tokenizer_total_and_skips_unrecognized.2 3 1 0 '@' ['a'] (by decide)⟩⟩

theorem jsToStringF_str (f : Nat) (s : String) : jsToStringF f (JSVal.str s) = s := by
  cases f <;> rfl

theorem strData_mk (l : List Char) : String.data ⟨l⟩ = l := rfl

theorem splitNl_no_nl (cs : List Char) (h : ∀ c ∈ cs, c ≠ '\n') :
    splitNl cs = [cs] := by
  induction cs with
  | nil => rfl
  | cons c rest ih =>
    rw [splitNl]
    rw [ih (fun c2 hc2 => h c2 (by simp [hc2]))]
    rw [if_neg (h c (by simp))]
    rfl

theorem splitNl_append_nl (a b : List Char) (h : ∀ c ∈ a, c ≠ '\n') :
    splitNl (a ++ '\n' :: b) = a :: splitNl b := by
  induction a with
  | nil => rfl
  | cons c t ih =>
    rw [List.cons_append, splitNl]
    rw [ih (fun c2 hc2 => h c2 (by simp [hc2]))]
    rw [if_neg (h c (by simp))]
    rfl

theorem joinNl_cons_data (l l2 : String) (rest : List String) :
    (joinNl (l :: l2 :: rest)).data = l.data ++ '\n' :: (joinNl (l2 :: rest)).data := by
  show ((l ++ "\n") ++ joinNl (l2 :: rest)).data = _
  rw [strAppend_data, strAppend_data]
  simp

theorem splitNl_joinNl : ∀ (ls : List String), ls ≠ [] →
    (∀ l ∈ ls, ∀ c ∈ (l : String).data, c ≠ '\n') →
    splitNl ((joinNl ls).data) = ls.map String.data := by
  intro ls
  induction ls with
  | nil => intro h; exact absurd rfl h
  | cons l rest ih =>
    intro _ hnl
    match rest with
    | [] =>
      show splitNl l.data = [l.data]
      exact splitNl_no_nl l.data (hnl l (by simp))
    | l2 :: rest2 =>
      rw [joinNl_cons_data]
      rw [splitNl_append_nl _ _ (hnl l (by simp))]
      rw [ih (by simp) (fun x hx c hc => hnl x (by simp [hx]) c hc)]
      rfl

theorem scanStr_clean (xs ys : List Char)
    (h : ∀ c ∈ xs, c ≠ '"' ∧ c ≠ '\\') :
    scanStr (xs ++ '"' :: ys) = (xs, ys, xs.length + 1) := by
  induction xs with
  | nil =>
    rw [List.nil_append, scanStr.eq_def]
    dsimp only
    rw [if_pos rfl]
    rfl
  | cons c t ih =>
    rw [List.cons_append, scanStr.eq_def]
    dsimp only
    rw [if_neg (h c (by simp)).1, if_neg (h c (by simp)).2]
    rw [ih (fun c2 hc2 => h c2 (by simp [hc2]))]
    rfl

theorem takeWhile_all_head (p : Char → Bool) (xs : List Char) (y : Char)
    (ys : List Char) (hxs : ∀ c ∈ xs, p c = true) (hy : p y = false) :
    ((xs ++ y :: ys).takeWhile p) = xs := by
  induction xs with
  | nil => simp [List.takeWhile, hy]
  | cons c t ih =>
    rw [List.cons_append]
    rw [List.takeWhile_cons_of_pos (hxs c (by simp))]
    rw [ih (fun c2 hc2 => hxs c2 (by simp [hc2]))]

theorem dropWhile_all_head (p : Char → Bool) (xs : List Char) (y : Char)
    (ys : List Char) (hxs : ∀ c ∈ xs, p c = true) (hy : p y = false) :
    ((xs ++ y :: ys).dropWhile p) = y :: ys := by
  induction xs with
  | nil => simp [List.dropWhile, hy]
  | cons c t ih =>
    rw [List.cons_append]
    rw [List.dropWhile_cons_of_pos (hxs c (by simp))]
    exact ih (fun c2 hc2 => hxs c2 (by simp [hc2]))


/-! ## C4: the generate-parse roundtrip -/

/-- A `tokLineF` call with at least four units of fuel left on the single
remaining character `;` yields one delimiter token. -/
theorem tokLineF_semi (f ln col : Nat) :
    tokLineF (f + 4) ln col [';'] = [⟨TokType.delimiter, ";", ln, col + 1⟩] := rfl

/-- Tokenizing the generator's header comment line yields no tokens. -/
theorem tokLine_genBy (ln : Nat) :
    tokenizeLine ln (String.data "// Generated by logiops-gui") = [] := rfl

/-- Tokenizing the `// Created:` comment line yields no tokens. -/
theorem tokLine_created (ln : Nat) (rest : List Char) :
    tokenizeLine ln (String.data "// Created: " ++ rest) = [] := rfl

/-- Tokenizing the `// Modified:` comment line yields no tokens. -/
theorem tokLine_modified (ln : Nat) (rest : List Char) :
    tokenizeLine ln (String.data "// Modified: " ++ rest) = [] := rfl

/-- Tokenizing an empty line yields no tokens. -/
theorem tokLine_emptyLine (ln : Nat) :
    tokenizeLine ln (String.data "") = [] := rfl

/-- Tokenizing the generator's `devices: (` line. -/
theorem tokLine_devices (ln : Nat) :
    tokenizeLine ln (String.data "devices: (") =
    [⟨TokType.identifier, "devices", ln, 1⟩, ⟨TokType.operator, ":", ln, 8⟩,
     ⟨TokType.delimiter, "(", ln, 10⟩] := rfl

/-- Tokenizing the opening-brace line of a device block. -/
theorem tokLine_openBrace (ln : Nat) :
    tokenizeLine ln (String.data "\x7b") = [⟨TokType.delimiter, "\x7b", ln, 1⟩] := rfl

/-- Tokenizing the per-device `// For the ...` comment line yields no
tokens. -/
theorem tokLine_forThe (ln : Nat) (rest : List Char) :
    tokenizeLine ln (String.data "  // For the " ++ rest) = [] := rfl

/-- Tokenizing the generator's closing `});` line. -/
theorem tokLine_closeAll (ln : Nat) :
    tokenizeLine ln (String.data "\x7d);") =
    [⟨TokType.delimiter, "\x7d", ln, 1⟩, ⟨TokType.delimiter, ")", ln, 2⟩,
     ⟨TokType.delimiter, ";", ln, 3⟩] := rfl

/-- Tokenizing the generated `name` line for a device name free of quotes
and backslashes: identifier, operator, string and semicolon tokens. -/
theorem tokLine_name (ln : Nat) (nm : List Char)
    (h : ∀ c ∈ nm, c ≠ '"' ∧ c ≠ '\\') :
    tokenizeLine ln ((String.data "  name: \"" ++ nm) ++ String.data "\";") =
    [⟨TokType.identifier, "name", ln, 3⟩, ⟨TokType.operator, ":", ln, 7⟩,
     ⟨TokType.string, ⟨nm⟩, ln, 9⟩,
     ⟨TokType.delimiter, ";", ln, 8 + 1 + (nm.length + 1) + 1⟩] := by
  have e0 : tokenizeLine ln ((String.data "  name: \"" ++ nm) ++ String.data "\";") =
      ⟨TokType.identifier, "name", ln, 3⟩ :: ⟨TokType.operator, ":", ln, 7⟩ ::
      ⟨TokType.string, ⟨(scanStr (nm ++ ['"', ';'])).1⟩, ln, 9⟩ ::
      tokLineF ((nm ++ ['"', ';']).length + 4) ln
        (8 + 1 + (scanStr (nm ++ ['"', ';'])).2.2) (scanStr (nm ++ ['"', ';'])).2.1 := rfl
  rw [e0, scanStr_clean nm [';'] h]
  rw [tokLineF_semi]

/-- Tokenizing the generated `vid` line for a `0x`-prefixed all-hex value:
identifier, operator, hex-number and semicolon tokens. -/
theorem tokLine_vid (ln : Nat) (vds : List Char)
    (h : ∀ c ∈ vds, isHexDigitJS c = true) :
    tokenizeLine ln ((String.data "  vid: " ++ ('0' :: 'x' :: vds)) ++ String.data ";") =
    [⟨TokType.identifier, "vid", ln, 3⟩, ⟨TokType.operator, ":", ln, 6⟩,
     ⟨TokType.number, ⟨'0' :: 'x' :: vds⟩, ln, 8⟩,
     ⟨TokType.delimiter, ";", ln, 7 + 2 + vds.length + 1⟩] := by
  have e0 : tokenizeLine ln ((String.data "  vid: " ++ ('0' :: 'x' :: vds)) ++ String.data ";") =
      ⟨TokType.identifier, "vid", ln, 3⟩ :: ⟨TokType.operator, ":", ln, 6⟩ ::
      ⟨TokType.number, ⟨'0' :: 'x' :: List.takeWhile isHexDigitJS (vds ++ [';'])⟩, ln, 8⟩ ::
      tokLineF ((vds ++ [';']).length + 4) ln
        (7 + 2 + (List.takeWhile isHexDigitJS (vds ++ [';'])).length)
        (List.dropWhile isHexDigitJS (vds ++ [';'])) := rfl
  rw [e0, takeWhile_all_head isHexDigitJS vds ';' [] h (by decide),
    dropWhile_all_head isHexDigitJS vds ';' [] h (by decide)]
  rw [tokLineF_semi]

/-- Tokenizing the generated `pid` line for a `0x`-prefixed all-hex value. -/
theorem tokLine_pid (ln : Nat) (pds : List Char)
    (h : ∀ c ∈ pds, isHexDigitJS c = true) :
    tokenizeLine ln ((String.data "  pid: " ++ ('0' :: 'x' :: pds)) ++ String.data ";") =
    [⟨TokType.identifier, "pid", ln, 3⟩, ⟨TokType.operator, ":", ln, 6⟩,
     ⟨TokType.number, ⟨'0' :: 'x' :: pds⟩, ln, 8⟩,
     ⟨TokType.delimiter, ";", ln, 7 + 2 + pds.length + 1⟩] := by
  have e0 : tokenizeLine ln ((String.data "  pid: " ++ ('0' :: 'x' :: pds)) ++ String.data ";") =
      ⟨TokType.identifier, "pid", ln, 3⟩ :: ⟨TokType.operator, ":", ln, 6⟩ ::
      ⟨TokType.number, ⟨'0' :: 'x' :: List.takeWhile isHexDigitJS (pds ++ [';'])⟩, ln, 8⟩ ::
      tokLineF ((pds ++ [';']).length + 4) ln
        (7 + 2 + (List.takeWhile isHexDigitJS (pds ++ [';'])).length)
        (List.dropWhile isHexDigitJS (pds ++ [';'])) := rfl
  rw [e0, takeWhile_all_head isHexDigitJS pds ';' [] h (by decide),
    dropWhile_all_head isHexDigitJS pds ';' [] h (by decide)]
  rw [tokLineF_semi]

/-- Newline-freeness is preserved by string append. -/
theorem strNoNl_append (a b : String)
    (ha : ∀ c ∈ a.data, c ≠ '\n') (hb : ∀ c ∈ b.data, c ≠ '\n') :
    ∀ c ∈ (a ++ b).data, c ≠ '\n' := by
  rw [strAppend_data]
  intro c hc
  rcases List.mem_append.mp hc with h | h
  exacts [ha c h, hb c h]


/-- Mapping the parsed device object of the roundtrip: a truthy name plus
`0x`-prefixed hex `vid`/`pid` strings come back lower-cased and
`0x`-prefixed. -/
theorem parseDevice_c4 (fuel : Nat) (nm vds pds : List Char) (hnm : nm ≠ [])
    (hv : ∀ c ∈ vds, isHexDigitJS c = true)
    (hp : ∀ c ∈ pds, isHexDigitJS c = true) :
    parseDeviceFromDataF fuel (JSVal.obj [("name", JSVal.str ⟨nm⟩),
      ("vid", JSVal.str ⟨'0' :: 'x' :: vds⟩), ("pid", JSVal.str ⟨'0' :: 'x' :: pds⟩)]) =
    Except.ok (some { name := ⟨nm⟩,
                      vid := some ⟨'0' :: 'x' :: (vds.map charToLowerJS)⟩,
                      pid := some ⟨'0' :: 'x' :: (pds.map charToLowerJS)⟩ }) := by
  have e1 : truthy (JSVal.str ⟨nm⟩) = true :=
    decide_eq_true (fun h => hnm (congrArg String.data h))
  have e2v : jsToStringF fuel (JSVal.str ⟨'0' :: 'x' :: vds⟩) = ⟨'0' :: 'x' :: vds⟩ :=
    jsToStringF_str _ _
  have e2p : jsToStringF fuel (JSVal.str ⟨'0' :: 'x' :: pds⟩) = ⟨'0' :: 'x' :: pds⟩ :=
    jsToStringF_str _ _
  have e3v : normalizeHexValue ⟨'0' :: 'x' :: vds⟩ =
      ⟨'0' :: 'x' :: (vds.map charToLowerJS)⟩ :=
    normalizeHexValue_shape ['0', 'x'] vds (Or.inr (Or.inl rfl)) hv
  have e3p : normalizeHexValue ⟨'0' :: 'x' :: pds⟩ =
      ⟨'0' :: 'x' :: (pds.map charToLowerJS)⟩ :=
    normalizeHexValue_shape ['0', 'x'] pds (Or.inr (Or.inl rfl)) hp
  have hnev : (⟨'0' :: 'x' :: vds⟩ : String) ≠ "" :=
    fun h => List.noConfusion (congrArg String.data h)
  have hnep : (⟨'0' :: 'x' :: pds⟩ : String) ≠ "" :=
    fun h => List.noConfusion (congrArg String.data h)
  have e1v : truthy (JSVal.str ⟨'0' :: 'x' :: vds⟩) = true := decide_eq_true hnev
  have e1p : truthy (JSVal.str ⟨'0' :: 'x' :: pds⟩) = true := decide_eq_true hnep
  simp only [parseDeviceFromDataF, getField, getKey, e1, e2v, e2p, e3v, e3p]
  simp
  simp only [e1, e1v, e1p, e2v, e2p, e3v, e3p]
  rfl


/-- Tokenizing the full generated file for one device: comment lines vanish
and the device block yields exactly nineteen tokens. -/
theorem tokenize_c4 (nm vds pds cISO mISO : List Char)
    (hnmq : ∀ c ∈ nm, c ≠ '"' ∧ c ≠ '\\')
    (hnmn : ∀ c ∈ nm, c ≠ '\n')
    (hv : ∀ c ∈ vds, isHexDigitJS c = true)
    (hp : ∀ c ∈ pds, isHexDigitJS c = true)
    (hcn : ∀ c ∈ cISO, c ≠ '\n') (hmn : ∀ c ∈ mISO, c ≠ '\n') :
    tokenize (joinNl ["// Generated by logiops-gui",
      "// Created: " ++ ⟨cISO⟩, "// Modified: " ++ ⟨mISO⟩, "",
      "devices: (", "\x7b", "  // For the " ++ ⟨nm⟩,
      "  name: \"" ++ ⟨nm⟩ ++ "\";",
      "  vid: " ++ ⟨'0' :: 'x' :: vds⟩ ++ ";",
      "  pid: " ++ ⟨'0' :: 'x' :: pds⟩ ++ ";", "\x7d);"]) =
    [⟨TokType.identifier, "devices", 5, 1⟩, ⟨TokType.operator, ":", 5, 8⟩,
     ⟨TokType.delimiter, "(", 5, 10⟩,
     ⟨TokType.delimiter, "\x7b", 6, 1⟩,
     ⟨TokType.identifier, "name", 8, 3⟩, ⟨TokType.operator, ":", 8, 7⟩,
     ⟨TokType.string, ⟨nm⟩, 8, 9⟩,
     ⟨TokType.delimiter, ";", 8, 8 + 1 + (nm.length + 1) + 1⟩,
     ⟨TokType.identifier, "vid", 9, 3⟩, ⟨TokType.operator, ":", 9, 6⟩,
     ⟨TokType.number, ⟨'0' :: 'x' :: vds⟩, 9, 8⟩,
     ⟨TokType.delimiter, ";", 9, 7 + 2 + vds.length + 1⟩,
     ⟨TokType.identifier, "pid", 10, 3⟩, ⟨TokType.operator, ":", 10, 6⟩,
     ⟨TokType.number, ⟨'0' :: 'x' :: pds⟩, 10, 8⟩,
     ⟨TokType.delimiter, ";", 10, 7 + 2 + pds.length + 1⟩,
     ⟨TokType.delimiter, "\x7d", 11, 1⟩, ⟨TokType.delimiter, ")", 11, 2⟩,
     ⟨TokType.delimiter, ";", 11, 3⟩] := by
  have hvn : ∀ c ∈ ('0' :: 'x' :: vds : List Char), c ≠ '\n' := by
    intro c hc
    rcases List.mem_cons.mp hc with rfl | hc
    · decide
    rcases List.mem_cons.mp hc with rfl | hc
    · decide
    intro he
    subst he
    exact absurd (hv _ hc) (by decide)
  have hpn : ∀ c ∈ ('0' :: 'x' :: pds : List Char), c ≠ '\n' := by
    intro c hc
    rcases List.mem_cons.mp hc with rfl | hc
    · decide
    rcases List.mem_cons.mp hc with rfl | hc
    · decide
    intro he
    subst he
    exact absurd (hp _ hc) (by decide)
  have hsplit := splitNl_joinNl ["// Generated by logiops-gui",
      "// Created: " ++ ⟨cISO⟩, "// Modified: " ++ ⟨mISO⟩, "",
      "devices: (", "\x7b", "  // For the " ++ ⟨nm⟩,
      "  name: \"" ++ ⟨nm⟩ ++ "\";",
      "  vid: " ++ ⟨'0' :: 'x' :: vds⟩ ++ ";",
      "  pid: " ++ ⟨'0' :: 'x' :: pds⟩ ++ ";", "\x7d);"] (by simp) ?hno
  case hno =>
    intro l hl
    simp only [List.mem_cons, List.not_mem_nil, or_false] at hl
    rcases hl with rfl | rfl | rfl | rfl | rfl | rfl | rfl | rfl | rfl | rfl | rfl
    · decide
    · exact strNoNl_append _ _ (by decide) hcn
    · exact strNoNl_append _ _ (by decide) hmn
    · decide
    · decide
    · decide
    · exact strNoNl_append _ _ (by decide) hnmn
    · exact strNoNl_append _ _ (strNoNl_append _ _ (by decide) hnmn) (by decide)
    · exact strNoNl_append _ _ (strNoNl_append _ _ (by decide) hvn) (by decide)
    · exact strNoNl_append _ _ (strNoNl_append _ _ (by decide) hpn) (by decide)
    · decide
  unfold tokenize
  rw [hsplit]
  show tokenizeLine 1 (String.data "// Generated by logiops-gui") ++
      (tokenizeLine 2 (String.data "// Created: " ++ cISO) ++
      (tokenizeLine 3 (String.data "// Modified: " ++ mISO) ++
      (tokenizeLine 4 (String.data "") ++
      (tokenizeLine 5 (String.data "devices: (") ++
      (tokenizeLine 6 (String.data "\x7b") ++
      (tokenizeLine 7 (String.data "  // For the " ++ nm) ++
      (tokenizeLine 8 ((String.data "  name: \"" ++ nm) ++ String.data "\";") ++
      (tokenizeLine 9 ((String.data "  vid: " ++ ('0' :: 'x' :: vds)) ++ String.data ";") ++
      (tokenizeLine 10 ((String.data "  pid: " ++ ('0' :: 'x' :: pds)) ++ String.data ";") ++
      (tokenizeLine 11 (String.data "\x7d);") ++ [])))))))))) = _
  rw [tokLine_genBy, tokLine_created, tokLine_modified, tokLine_emptyLine,
    tokLine_devices, tokLine_openBrace, tokLine_forThe,
    tokLine_name 8 nm hnmq, tokLine_vid 9 vds hv, tokLine_pid 10 pds hp,
    tokLine_closeAll]
  rfl


/-- Parsing the tokens of the generated file yields the expected tree: one
`devices` key holding an array with the single device object. -/
theorem parseLib_c4 (nm vds pds cISO mISO : List Char)
    (hnmq : ∀ c ∈ nm, c ≠ '"' ∧ c ≠ '\\')
    (hnmn : ∀ c ∈ nm, c ≠ '\n')
    (hv : ∀ c ∈ vds, isHexDigitJS c = true)
    (hp : ∀ c ∈ pds, isHexDigitJS c = true)
    (hcn : ∀ c ∈ cISO, c ≠ '\n') (hmn : ∀ c ∈ mISO, c ≠ '\n') :
    parseLibconfigRes (joinNl ["// Generated by logiops-gui",
      "// Created: " ++ ⟨cISO⟩, "// Modified: " ++ ⟨mISO⟩, "",
      "devices: (", "\x7b", "  // For the " ++ ⟨nm⟩,
      "  name: \"" ++ ⟨nm⟩ ++ "\";",
      "  vid: " ++ ⟨'0' :: 'x' :: vds⟩ ++ ";",
      "  pid: " ++ ⟨'0' :: 'x' :: pds⟩ ++ ";", "\x7d);"]) =
    Except.ok (JSVal.obj [("devices", JSVal.arr [JSVal.obj
      [("name", JSVal.str ⟨nm⟩), ("vid", JSVal.str ⟨'0' :: 'x' :: vds⟩),
       ("pid", JSVal.str ⟨'0' :: 'x' :: pds⟩)]])]) := by
  have htok := tokenize_c4 nm vds pds cISO mISO hnmq hnmn hv hp hcn hmn
  unfold parseLibconfigRes
  rw [htok]
  rfl

/-- The devices loop on the parsed array of one clean device object. -/
theorem devicesLoop_c4 (nm vds pds : List Char) (hnm : nm ≠ [])
    (hv : ∀ c ∈ vds, isHexDigitJS c = true)
    (hp : ∀ c ∈ pds, isHexDigitJS c = true) (f : Nat) :
    parseDevicesFromDataF f (JSVal.arr [JSVal.obj [("name", JSVal.str ⟨nm⟩),
      ("vid", JSVal.str ⟨'0' :: 'x' :: vds⟩),
      ("pid", JSVal.str ⟨'0' :: 'x' :: pds⟩)]]) =
    Except.ok [{ name := ⟨nm⟩,
                 vid := some ⟨'0' :: 'x' :: (vds.map charToLowerJS)⟩,
                 pid := some ⟨'0' :: 'x' :: (pds.map charToLowerJS)⟩ }] := by
  unfold parseDevicesFromDataF devicesLoopF
  rw [parseDevice_c4 f nm vds pds hnm hv hp]
  rfl


/-- C4 (amended): for a non-empty device name without quote, backslash or
newline characters, and `vid`/`pid` given as `0x`-prefixed (lowercase `x`)
strings of hex digits of either case, parsing the text produced by
`generateConfigFile` on the one-device configuration succeeds and returns
that device with exactly the same name and the normalized lower-case
`0x`-prefixed `vid`/`pid` (the metadata is rebuilt with fresh timestamps and
the generated text as `originalContent`).  The unamended claim, which also
admits `vid`/`pid` without the `0x` prefix, is refuted by
`c4_counterexample`. -/
theorem c4_generate_parse_roundtrip (nm vds pds cISO mISO : List Char) (ver : String)
    (fn oc : Option String)
    (hnm : nm ≠ [])
    (hnmq : ∀ c ∈ nm, c ≠ '"' ∧ c ≠ '\\')
    (hnmn : ∀ c ∈ nm, c ≠ '\n')
    (hv : ∀ c ∈ vds, isHexDigitJS c = true)
    (hp : ∀ c ∈ pds, isHexDigitJS c = true)
    (hcn : ∀ c ∈ cISO, c ≠ '\n') (hmn : ∀ c ∈ mISO, c ≠ '\n') :
    parseConfigFileM (generateConfigFile
      { devices := [{ name := ⟨nm⟩, vid := some ⟨'0' :: 'x' :: vds⟩,
                      pid := some ⟨'0' :: 'x' :: pds⟩ }],
        metadata := { version := ver, createdISO := ⟨cISO⟩, modifiedISO := ⟨mISO⟩,
                      filename := fn, originalContent := oc } }) none =
    Except.ok { devices := [{ name := ⟨nm⟩,
                              vid := some ⟨'0' :: 'x' :: (vds.map charToLowerJS)⟩,
                              pid := some ⟨'0' :: 'x' :: (pds.map charToLowerJS)⟩ }],
                metadata := { version := "1.0.0", createdISO := newDateISO,
                              modifiedISO := newDateISO, filename := none,
                              originalContent := some (generateConfigFile
      { devices := [{ name := ⟨nm⟩, vid := some ⟨'0' :: 'x' :: vds⟩,
                      pid := some ⟨'0' :: 'x' :: pds⟩ }],
        metadata := { version := ver, createdISO := ⟨cISO⟩, modifiedISO := ⟨mISO⟩,
                      filename := fn, originalContent := oc } }) } } := by
  have hgen : generateConfigFile
      { devices := [{ name := ⟨nm⟩, vid := some ⟨'0' :: 'x' :: vds⟩,
                      pid := some ⟨'0' :: 'x' :: pds⟩ }],
        metadata := { version := ver, createdISO := ⟨cISO⟩, modifiedISO := ⟨mISO⟩,
                      filename := fn, originalContent := oc } } =
      joinNl ["// Generated by logiops-gui",
        "// Created: " ++ ⟨cISO⟩, "// Modified: " ++ ⟨mISO⟩, "",
        "devices: (", "\x7b", "  // For the " ++ ⟨nm⟩,
        "  name: \"" ++ ⟨nm⟩ ++ "\";",
        "  vid: " ++ ⟨'0' :: 'x' :: vds⟩ ++ ";",
        "  pid: " ++ ⟨'0' :: 'x' :: pds⟩ ++ ";", "\x7d);"] := rfl
  rw [hgen]
  unfold parseConfigFileM
  rw [parseLib_c4 nm vds pds cISO mISO hnmq hnmn hv hp hcn hmn]
  show (match parseDevicesFromDataF ((joinNl ["// Generated by logiops-gui",
        "// Created: " ++ ⟨cISO⟩, "// Modified: " ++ ⟨mISO⟩, "",
        "devices: (", "\x7b", "  // For the " ++ ⟨nm⟩,
        "  name: \"" ++ ⟨nm⟩ ++ "\";",
        "  vid: " ++ ⟨'0' :: 'x' :: vds⟩ ++ ";",
        "  pid: " ++ ⟨'0' :: 'x' :: pds⟩ ++ ";", "\x7d);"]).data.length + 16)
      (JSVal.arr [JSVal.obj [("name", JSVal.str ⟨nm⟩),
        ("vid", JSVal.str ⟨'0' :: 'x' :: vds⟩),
        ("pid", JSVal.str ⟨'0' :: 'x' :: pds⟩)]]) with
    | Except.error m =>
      Except.error { message := "Failed to parse configuration file: " ++ m }
    | Except.ok devices =>
      Except.ok { devices := devices
                  metadata := { version := "1.0.0", createdISO := newDateISO
                                modifiedISO := newDateISO, filename := none
                                originalContent := some (joinNl ["// Generated by logiops-gui",
        "// Created: " ++ ⟨cISO⟩, "// Modified: " ++ ⟨mISO⟩, "",
        "devices: (", "\x7b", "  // For the " ++ ⟨nm⟩,
        "  name: \"" ++ ⟨nm⟩ ++ "\";",
        "  vid: " ++ ⟨'0' :: 'x' :: vds⟩ ++ ";",
        "  pid: " ++ ⟨'0' :: 'x' :: pds⟩ ++ ";", "\x7d);"]) } } :
    Except ConfigParseError LogiopsConfiguration) = _
  rw [devicesLoop_c4 nm vds pds hnm hv hp]

/-- Witness for C4: the device `MX` with `vid` `0x046D` and `pid` `0x4082`
roundtrips, `vid` coming back lower-cased as `0x046d`. -/
theorem c4_witness :
    parseConfigFileM (generateConfigFile
      { devices := [{ name := "MX", vid := some "0x046D", pid := some "0x4082" }],
        metadata := { version := "1.0.0", createdISO := "2024-01-01T00:00:00.000Z",
                      modifiedISO := "2024-01-01T00:00:00.000Z" } }) none =
    Except.ok { devices := [{ name := "MX", vid := some "0x046d", pid := some "0x4082" }],
                metadata := { version := "1.0.0", createdISO := newDateISO,
                              modifiedISO := newDateISO, filename := none,
                              originalContent := some (generateConfigFile
      { devices := [{ name := "MX", vid := some "0x046D", pid := some "0x4082" }],
        metadata := { version := "1.0.0", createdISO := "2024-01-01T00:00:00.000Z",
                      modifiedISO := "2024-01-01T00:00:00.000Z" } }) } } :=
  c4_generate_parse_roundtrip ['M', 'X'] ['0', '4', '6', 'D'] ['4', '0', '8', '2']
    "2024-01-01T00:00:00.000Z".data "2024-01-01T00:00:00.000Z".data "1.0.0" none none
    (by decide) (by decide) (by decide) (by decide) (by decide) (by decide) (by decide)

set_option maxRecDepth 16384 in
/-- Counterexample to C4 as stated: with the claim-allowed unprefixed `vid`
`046d`, the generator emits `vid: 046d;` raw, the tokenizer reads `046` as a
decimal number followed by the identifier `d`, and parsing the generated
text fails instead of returning the device. -/
theorem c4_counterexample :
    parseConfigFileM (generateConfigFile
      { devices := [{ name := "MX Master 3", vid := some "046d", pid := some "4082" }],
        metadata := { version := "1.0.0", createdISO := "2024-01-01T00:00:00.000Z",
                      modifiedISO := "2024-01-01T00:00:00.000Z" } }) none =
    Except.error { message :=
      "Failed to parse configuration file: Expected : or = after d at line 9" } := rfl

end GuiLogiops
